import Mathlib

/-!
# Verification of the spiflash SPI-NOR flash driver (src/spiflash.c, src/spiflash.h)

A shallow embedding of the driver's operation engine.  Machine integers are
modelled as `Nat` with explicit `% 2^32` where 32-bit overflow matters.  The
host HAL (`spi_txrx`, `cs`, `wait`) is modelled as an oracle giving, for the
n-th `spi_txrx` invocation, its result code and received bytes; every HAL
invocation is logged into an event trace.  The synchronous execution loop is
fuel-indexed (the C loop need not terminate against an always-busy chip).
-/

namespace Spiflash

/-- Error codes from spiflash.h (`_SPIFLASH_ERR_BASE = -24000`). -/
def SPIFLASH_OK : Int := 0
def SPIFLASH_ERR_INTERNAL : Int := -24001
def SPIFLASH_ERR_BAD_STATE : Int := -24002
def SPIFLASH_ERR_HW_BUSY : Int := -24003
def SPIFLASH_ERR_BUSY : Int := -24004
def SPIFLASH_ERR_ERASE_UNALIGNED : Int := -24005
def SPIFLASH_ERR_BAD_CONFIG : Int := -24006

/-- `spiflash_cmd_tbl_t`: per-chip opcodes (0 = unsupported) and the SR busy bit mask. -/
structure CmdTbl where
  write_disable : Nat := 0
  write_enable : Nat := 0
  page_program : Nat := 0
  read_data : Nat := 0
  read_data_fast : Nat := 0
  write_sr : Nat := 0
  read_sr : Nat := 0
  block_erase_4 : Nat := 0
  block_erase_8 : Nat := 0
  block_erase_16 : Nat := 0
  block_erase_32 : Nat := 0
  block_erase_64 : Nat := 0
  chip_erase : Nat := 0
  device_id : Nat := 0
  jedec_id : Nat := 0
  sr_busy_bit : Nat := 0
  deriving Repr, DecidableEq

/-- `SPIFLASH_CMD_TBL_STANDARD` from spiflash.h. -/
def STD_CMD : CmdTbl :=
  { write_disable := 0x04, write_enable := 0x06, page_program := 0x02
    read_data := 0x03, read_data_fast := 0x0b, write_sr := 0x01, read_sr := 0x05
    block_erase_4 := 0x20, block_erase_8 := 0x00, block_erase_16 := 0x00
    block_erase_32 := 0x52, block_erase_64 := 0xd8, chip_erase := 0xc7
    device_id := 0x90, jedec_id := 0x9f, sr_busy_bit := 0x01 }

/-- `spiflash_config_t`: chip geometry and nominal timings. -/
structure Cfg where
  sz : Nat := 0
  page_sz : Nat := 0
  addr_sz : Nat := 0
  addr_dummy_sz : Nat := 0
  addr_endian : Nat := 0
  sr_write_ms : Nat := 0
  page_program_ms : Nat := 0
  block_erase_4_ms : Nat := 0
  block_erase_8_ms : Nat := 0
  block_erase_16_ms : Nat := 0
  block_erase_32_ms : Nat := 0
  block_erase_64_ms : Nat := 0
  chip_erase_ms : Nat := 0
  deriving Repr, DecidableEq

/-- `spiflash_op_t`. -/
inductive Op where
  | IDLE
  | ERASE_BLOCK_sWREN | ERASE_BLOCK_sERAS
  | ERASE_CHIP_sWREN | ERASE_CHIP_sERAS
  | WRITE_sWREN | WRITE_sADDR | WRITE_sDATA
  | WRITE_SR_sWREN | WRITE_SR_sDATA
  | WRITE_REG_sWREN | WRITE_REG_sDATAWAIT | WRITE_REG_DATA
  | READ | FAST_READ
  | READ_SR | READ_SR_BUSY
  | READ_JEDEC | READ_PRODUCT | READ_REG
  deriving Repr, DecidableEq

/-- Busy-check-wait sub-states `BCW_IDLE / BCW_WAIT / BCW_READ_SR / BCW_CHECK`. -/
def BCW_IDLE : Nat := 0
def BCW_WAIT : Nat := 1
def BCW_READ_SR : Nat := 2
def BCW_CHECK : Nat := 3

/-- `#define DECR_WAIT(_ms) ((1*(_ms)/2) == 0 ? 1 : (1*(_ms)/2))`. -/
def DECR_WAIT (ms : Nat) : Nat := if 1 * ms / 2 = 0 then 1 else 1 * ms / 2

/-- The (modified) De Bruijn lookup table from spiflash.c; entry 0 holds 32
rather than the classical 0. -/
def MultiplyDeBruijnBitPosition : List Nat :=
  [32, 1, 28, 2, 29, 14, 24, 3, 30, 22, 20, 15, 25, 17, 4, 8,
   31, 27, 13, 23, 21, 19, 16, 7, 26, 12, 18, 6, 11, 5, 10, 9]

/-- `_spiflash_clz`: trailing-zero count via De Bruijn multiplication, on a
32-bit value `v < 2^32`.  `v & -v` is `v &&& ((2^32 - v) % 2^32)`. -/
def spiflash_clz (v : Nat) : Nat :=
  MultiplyDeBruijnBitPosition.getD
    ((((v &&& ((2 ^ 32 - v) % 2 ^ 32)) * 0x077CB531) % 2 ^ 32) >>> 27) 0

/-- `_spiflash_is_hwbusy`: nonzero iff the busy bit of `sr` is set. -/
def spiflash_is_hwbusy (c : CmdTbl) (sr : Nat) : Bool :=
  (sr &&& c.sr_busy_bit) ≠ 0

/-- One byte of `_spiflash_compose_address`. -/
def compose_address_byte (cfg : Cfg) (addr i : Nat) : Nat :=
  (if cfg.addr_endian ≠ 0 then
     addr >>> (8 * ((cfg.addr_sz - 1) - i))
   else
     addr >>> (8 * i)) % 256

/-- `_spiflash_compose_address` as the list of emitted address bytes. -/
def compose_address (cfg : Cfg) (addr : Nat) : List Nat :=
  (List.range cfg.addr_sz).map (compose_address_byte cfg addr)

/-- `_spiflash_get_supported_block_mask`: bit 4 = 4K ... bit 8 = 64K. -/
def get_supported_block_mask (c : CmdTbl) : Nat :=
  (if c.block_erase_4 ≠ 0 then 1 <<< 4 else 0) |||
  (if c.block_erase_8 ≠ 0 then 1 <<< 5 else 0) |||
  (if c.block_erase_16 ≠ 0 then 1 <<< 6 else 0) |||
  (if c.block_erase_32 ≠ 0 then 1 <<< 7 else 0) |||
  (if c.block_erase_64 ≠ 0 then 1 <<< 8 else 0)

/-- The `while (bm != 0)` loop of `_spiflash_get_largest_erase_area`.  The
first argument is structural-recursion fuel: every iteration at least halves
`bm`, so `bm` itself is sufficient fuel and the 0-fuel base case is never
reached from `get_largest_erase_area`. -/
def erase_area_loop (addr_lz len : Nat) : Nat → Nat → Nat → Nat → Nat
  | 0, _, _, res => res
  | fuel + 1, bm, bm_lz, res =>
    if bm = 0 then res
    else
      let res' := if addr_lz ≥ bm_lz ∧ len ≥ 1 <<< bm_lz then 1 <<< bm_lz else res
      let bm1 := bm >>> 1
      let lz1 := bm_lz + 1
      let nlz0 := spiflash_clz bm1
      let nlz := if nlz0 = 32 then 0 else nlz0
      erase_area_loop addr_lz len fuel (bm1 >>> nlz) (lz1 + nlz) res'

/-- `_spiflash_get_largest_erase_area`. -/
def get_largest_erase_area (c : CmdTbl) (addr len : Nat) : Nat :=
  let bm := get_supported_block_mask c
  let bm_lz := spiflash_clz bm
  let addr_lz := spiflash_clz addr
  let bm' := bm >>> bm_lz
  let bm_lz' := bm_lz + 8
  if len &&& (1 <<< bm_lz' - 1) ≠ 0 then 0
  else erase_area_loop addr_lz len bm' bm' bm_lz' 0

/-- `_spiflash_get_erase_cmd`. -/
def get_erase_cmd (c : CmdTbl) (len : Nat) : Nat :=
  if len = 4 * 1024 ∧ c.block_erase_4 ≠ 0 then c.block_erase_4
  else if len = 8 * 1024 ∧ c.block_erase_8 ≠ 0 then c.block_erase_8
  else if len = 16 * 1024 ∧ c.block_erase_16 ≠ 0 then c.block_erase_16
  else if len = 32 * 1024 ∧ c.block_erase_32 ≠ 0 then c.block_erase_32
  else if len = 64 * 1024 ∧ c.block_erase_64 ≠ 0 then c.block_erase_64
  else 0

/-- `_spiflash_get_erase_time`. -/
def get_erase_time (cfg : Cfg) (len : Nat) : Nat :=
  if len = 4 * 1024 then cfg.block_erase_4_ms
  else if len = 8 * 1024 then cfg.block_erase_8_ms
  else if len = 16 * 1024 then cfg.block_erase_16_ms
  else if len = 32 * 1024 then cfg.block_erase_32_ms
  else if len = 64 * 1024 then cfg.block_erase_64_ms
  else 0

/-! ## Driver state, HAL oracle, event traces -/

/-- The mutable part of `spiflash_t`.  The C union `reg_nbr / sr_data /
tx_internal_buf[16]` is modelled by the single byte store `ibuf`
(`sr_data = reg_nbr = ibuf 0`); the union `wr_len / rd_len / erase_len` by
`len`; the caller write-buffer pointer advance by the offset `wr_off`;
the byte behind the caller's `sr_dst` / `reg_dst` pointer by `dstb`. -/
structure SpiState where
  op : Op := .IDLE
  wait_period_ms : Nat := 0
  addr : Nat := 0
  len : Nat := 0
  wr_off : Nat := 0
  could_be_busy : Bool := false
  busy_pre_check : Bool := false
  busy_check_wait : Nat := 0
  ibuf : Nat → Nat := fun _ => 0
  dstb : Nat := 0

/-- The driver state right after `SPIFLASH_init` (which memsets to zero). -/
def initState : SpiState := {}

/-- HAL events, as observed by the host: chip-select changes, SPI
transactions (transmitted bytes and requested receive length), waits. -/
inductive Ev where
  | cs (asserted : Bool)
  | txrx (tx : List Nat) (rxLen : Nat)
  | wait (ms : Nat)
  deriving Repr, DecidableEq

/-- Deterministic HAL oracle: result code and received bytes of the n-th
`spi_txrx` call. -/
structure Hal where
  txres : Nat → Int
  rx : Nat → List Nat

/-- Static context of a run: chip config, command table, HAL oracle and the
contents of the caller's write buffer. -/
structure Ctx where
  cfg : Cfg
  cmd : CmdTbl
  hal : Hal
  wrData : Nat → Nat := fun _ => 0

/-- A world: driver state, number of `spi_txrx` calls so far, the HAL event
trace, and the asynchronous-callback log (`(operation, err_code)` pairs). -/
structure World where
  spi : SpiState := {}
  n : Nat := 0
  tr : List Ev := []
  cbs : List (Op × Int) := []

/-- `hal->_spiflash_spi_cs`. -/
def hal_cs (w : World) (b : Bool) : World := { w with tr := w.tr ++ [Ev.cs b] }

/-- `hal->_spiflash_wait`. -/
def hal_wait (w : World) (ms : Nat) : World := { w with tr := w.tr ++ [Ev.wait ms] }

/-- `hal->_spiflash_spi_txrx`: logs the transaction and consumes the next
oracle entry, returning the result code and the received bytes. -/
def hal_txrx (ctx : Ctx) (w : World) (tx : List Nat) (rxLen : Nat) :
    World × Int × List Nat :=
  ({ w with n := w.n + 1, tr := w.tr ++ [Ev.txrx tx rxLen] },
   ctx.hal.txres w.n, (ctx.hal.rx w.n).take rxLen)

/-- Functional store update for the scratch buffer. -/
def fwrite (f : Nat → Nat) (i v : Nat) : Nat → Nat :=
  fun j => if j = i then v else f j

/-- `_spiflash_compose_address(spi, addr, &tx_internal_buf[1])`: writes the
address bytes at scratch positions `1 .. addr_sz`. -/
def fwriteAddr (cfg : Cfg) (f : Nat → Nat) (addr : Nat) : Nat → Nat :=
  fun j => if 1 ≤ j ∧ j ≤ cfg.addr_sz then compose_address_byte cfg addr (j - 1) else f j

/-- First `k` bytes of the scratch buffer, as transmitted on the wire. -/
def ibufSlice (f : Nat → Nat) (k : Nat) : List Nat := (List.range k).map f

/-- `_spiflash_finalize`. -/
def spiflash_finalize (s : SpiState) : SpiState :=
  { s with wait_period_ms := 0, busy_pre_check := false, busy_check_wait := BCW_IDLE }

/-! ## `_spiflash_begin_async` -/

/-- `_spiflash_begin_async`: emit the current state's frame. -/
def begin_async (ctx : Ctx) (w : World) : World × Int :=
  let s := w.spi
  if s.op = Op.IDLE then (w, SPIFLASH_ERR_BAD_STATE)
  else if s.busy_pre_check then
    -- busy check: issue read sr (rx byte lands in sr_data = ibuf 0)
    let w := hal_cs w true
    let (w, res, rxb) := hal_txrx ctx w [ctx.cmd.read_sr] 1
    ({ w with spi := { w.spi with ibuf := fwrite w.spi.ibuf 0 (rxb.headD (w.spi.ibuf 0)) } }, res)
  else
    match s.op with
    | Op.WRITE_sWREN =>
      let w := hal_cs w true
      let (w, res, _) := hal_txrx ctx w [ctx.cmd.write_enable] 0
      (w, res)
    | Op.WRITE_sADDR =>
      let w := hal_cs w true
      let ib := fwriteAddr ctx.cfg (fwrite s.ibuf 0 ctx.cmd.page_program) s.addr
      let w := { w with spi := { w.spi with ibuf := ib } }
      let (w, res, _) :=
        hal_txrx ctx w (ibufSlice ib (1 + ctx.cfg.addr_sz + ctx.cfg.addr_dummy_sz)) 0
      (w, res)
    | Op.WRITE_sDATA =>
      let rem_pg_sz := ctx.cfg.page_sz - (s.addr &&& (ctx.cfg.page_sz - 1))
      let wr_sz := if s.len < rem_pg_sz then s.len else rem_pg_sz
      let payload := (List.range wr_sz).map (fun i => ctx.wrData (s.wr_off + i))
      let w := { w with spi :=
        { w.spi with wr_off := s.wr_off + wr_sz, len := s.len - wr_sz,
                     addr := (s.addr + wr_sz) % 2 ^ 32,
                     wait_period_ms := ctx.cfg.page_program_ms,
                     busy_check_wait := BCW_WAIT } }
      let (w, res, _) := hal_txrx ctx w payload 0
      (w, res)
    | Op.ERASE_BLOCK_sWREN =>
      let w := hal_cs w true
      let (w, res, _) := hal_txrx ctx w [ctx.cmd.write_enable] 0
      (w, res)
    | Op.ERASE_BLOCK_sERAS =>
      let era_sz := get_largest_erase_area ctx.cmd s.addr s.len
      let w := hal_cs w true
      let cmdb := get_erase_cmd ctx.cmd era_sz
      let era_time := get_erase_time ctx.cfg era_sz
      if cmdb = 0 then (w, SPIFLASH_ERR_BAD_CONFIG)
      else
        let ib := fwriteAddr ctx.cfg (fwrite s.ibuf 0 cmdb) s.addr
        let w := { w with spi :=
          { w.spi with ibuf := ib,
                       addr := (s.addr + era_sz) % 2 ^ 32, len := s.len - era_sz,
                       wait_period_ms := era_time, busy_check_wait := BCW_WAIT } }
        let (w, res, _) :=
          hal_txrx ctx w (ibufSlice ib (1 + ctx.cfg.addr_sz + ctx.cfg.addr_dummy_sz)) 0
        (w, res)
    | Op.WRITE_SR_sWREN =>
      let w := hal_cs w true
      let (w, res, _) := hal_txrx ctx w [ctx.cmd.write_enable] 0
      (w, res)
    | Op.WRITE_SR_sDATA =>
      -- buf[1] = sr_data (old buf[0]); buf[0] = write_sr opcode
      let ib := fwrite (fwrite s.ibuf 1 (s.ibuf 0)) 0 ctx.cmd.write_sr
      let w := hal_cs { w with spi := { w.spi with ibuf := ib } } true
      let w := { w with spi :=
        { w.spi with wait_period_ms := ctx.cfg.sr_write_ms, busy_check_wait := BCW_WAIT } }
      let (w, res, _) := hal_txrx ctx w (ibufSlice ib 2) 0
      (w, res)
    | Op.ERASE_CHIP_sWREN =>
      let w := hal_cs w true
      let (w, res, _) := hal_txrx ctx w [ctx.cmd.write_enable] 0
      (w, res)
    | Op.ERASE_CHIP_sERAS =>
      let w := hal_cs w true
      let ib := fwrite s.ibuf 0 ctx.cmd.chip_erase
      let w := { w with spi :=
        { w.spi with ibuf := ib, wait_period_ms := ctx.cfg.chip_erase_ms,
                     busy_check_wait := BCW_WAIT } }
      let (w, res, _) := hal_txrx ctx w (ibufSlice ib 1) 0
      (w, res)
    | Op.READ =>
      let w := hal_cs w true
      let ib := fwriteAddr ctx.cfg (fwrite s.ibuf 0 ctx.cmd.read_data) s.addr
      let w := { w with spi := { w.spi with ibuf := ib } }
      let (w, res, _) :=
        hal_txrx ctx w (ibufSlice ib (1 + ctx.cfg.addr_sz + ctx.cfg.addr_dummy_sz)) s.len
      (w, res)
    | Op.FAST_READ =>
      let w := hal_cs w true
      let ib := fwrite (fwriteAddr ctx.cfg (fwrite s.ibuf 0 ctx.cmd.read_data_fast) s.addr)
        (1 + ctx.cfg.addr_sz + 1) 0
      let w := { w with spi := { w.spi with ibuf := ib } }
      let (w, res, _) :=
        hal_txrx ctx w (ibufSlice ib (1 + ctx.cfg.addr_sz + 1 + ctx.cfg.addr_dummy_sz)) s.len
      (w, res)
    | Op.READ_JEDEC =>
      let w := hal_cs w true
      let (w, res, _) := hal_txrx ctx w [ctx.cmd.jedec_id] 3
      (w, res)
    | Op.READ_PRODUCT =>
      let w := hal_cs w true
      let (w, res, _) := hal_txrx ctx w [ctx.cmd.device_id] 3
      (w, res)
    | Op.READ_SR =>
      let w := hal_cs w true
      let (w, res, rxb) := hal_txrx ctx w [ctx.cmd.read_sr] 1
      ({ w with spi := { w.spi with dstb := rxb.headD w.spi.dstb } }, res)
    | Op.READ_SR_BUSY =>
      let w := hal_cs w true
      let (w, res, rxb) := hal_txrx ctx w [ctx.cmd.read_sr] 1
      ({ w with spi := { w.spi with dstb := rxb.headD w.spi.dstb } }, res)
    | Op.READ_REG =>
      let w := hal_cs w true
      let (w, res, rxb) := hal_txrx ctx w [s.ibuf 0] 1
      ({ w with spi := { w.spi with dstb := rxb.headD w.spi.dstb } }, res)
    | Op.WRITE_REG_sWREN =>
      let w := hal_cs w true
      let (w, res, _) := hal_txrx ctx w [ctx.cmd.write_enable] 0
      (w, res)
    | Op.WRITE_REG_DATA =>
      let w := hal_cs w true
      let w := { w with spi := { w.spi with busy_check_wait := BCW_IDLE } }
      let (w, res, _) := hal_txrx ctx w (ibufSlice s.ibuf 2) 0
      (w, res)
    | Op.WRITE_REG_sDATAWAIT =>
      let w := hal_cs w true
      let w := { w with spi := { w.spi with busy_check_wait := BCW_WAIT } }
      let (w, res, _) := hal_txrx ctx w (ibufSlice s.ibuf 2) 0
      (w, res)
    | Op.IDLE => (w, SPIFLASH_ERR_INTERNAL)

/-! ## `_spiflash_end_async` -/

/-- The "handle results" op-switch of `_spiflash_end_async`, plus its tail
(begin the next step, or deassert CS and finalize). -/
def end_results (ctx : Ctx) (w : World) (res0 : Int) : World × Int :=
  let (w, res) :=
    match w.spi.op with
    | Op.WRITE_sWREN =>
      (hal_cs { w with spi := { w.spi with op := Op.WRITE_sADDR } } false, res0)
    | Op.WRITE_sADDR =>
      ({ w with spi := { w.spi with op := Op.WRITE_sDATA } }, res0)
    | Op.WRITE_sDATA =>
      ({ w with spi := { w.spi with
          op := if w.spi.len = 0 then Op.IDLE else Op.WRITE_sWREN } }, res0)
    | Op.ERASE_BLOCK_sWREN =>
      (hal_cs { w with spi := { w.spi with op := Op.ERASE_BLOCK_sERAS } } false, res0)
    | Op.ERASE_BLOCK_sERAS =>
      ({ w with spi := { w.spi with
          op := if w.spi.len = 0 then Op.IDLE else Op.ERASE_BLOCK_sWREN } }, res0)
    | Op.WRITE_SR_sWREN =>
      (hal_cs { w with spi := { w.spi with op := Op.WRITE_SR_sDATA } } false, res0)
    | Op.WRITE_SR_sDATA =>
      ({ w with spi := { w.spi with op := Op.IDLE } }, res0)
    | Op.ERASE_CHIP_sWREN =>
      (hal_cs { w with spi := { w.spi with op := Op.ERASE_CHIP_sERAS } } false, res0)
    | Op.ERASE_CHIP_sERAS =>
      ({ w with spi := { w.spi with op := Op.IDLE } }, res0)
    | Op.READ =>
      ({ w with spi := { w.spi with op := Op.IDLE } }, res0)
    | Op.FAST_READ =>
      ({ w with spi := { w.spi with op := Op.IDLE } }, res0)
    | Op.READ_JEDEC =>
      ({ w with spi := { w.spi with op := Op.IDLE } }, res0)
    | Op.READ_PRODUCT =>
      ({ w with spi := { w.spi with op := Op.IDLE } }, res0)
    | Op.READ_SR_BUSY =>
      ({ w with spi := { w.spi with
          dstb := if w.spi.dstb &&& ctx.cmd.sr_busy_bit ≠ 0 then 1 else 0,
          op := Op.IDLE } }, res0)
    | Op.READ_SR =>
      ({ w with spi := { w.spi with op := Op.IDLE } }, res0)
    | Op.WRITE_REG_sWREN =>
      (hal_cs { w with spi := { w.spi with op := Op.WRITE_REG_sDATAWAIT } } false, res0)
    | Op.WRITE_REG_sDATAWAIT =>
      ({ w with spi := { w.spi with op := Op.IDLE } }, res0)
    | Op.WRITE_REG_DATA =>
      ({ w with spi := { w.spi with op := Op.IDLE } }, res0)
    | Op.READ_REG =>
      ({ w with spi := { w.spi with op := Op.IDLE } }, res0)
    | Op.IDLE => (w, SPIFLASH_ERR_INTERNAL)
  if res = SPIFLASH_OK ∧ w.spi.op ≠ Op.IDLE then
    begin_async ctx w
  else
    let w := hal_cs w false
    ({ w with spi := spiflash_finalize w.spi }, res)

/-- `_spiflash_end_async`: early error termination, busy pre-check, the
busy-check-wait sub-machine, then `end_results`. -/
def end_async (ctx : Ctx) (w : World) (res0 : Int) : World × Int :=
  if res0 ≠ SPIFLASH_OK then
    ({ w with spi := spiflash_finalize w.spi }, res0)
  else if w.spi.busy_pre_check then
    if spiflash_is_hwbusy ctx.cmd (w.spi.ibuf 0) then
      (hal_cs w false, SPIFLASH_ERR_HW_BUSY)
    else
      begin_async ctx { w with spi := { w.spi with busy_pre_check := false } }
  else if w.spi.busy_check_wait = BCW_WAIT then
    let w := hal_cs w false
    let w := { w with spi := { w.spi with
      busy_check_wait := if w.spi.wait_period_ms = 0 then BCW_IDLE else BCW_READ_SR } }
    (hal_wait w w.spi.wait_period_ms, SPIFLASH_OK)
  else if w.spi.busy_check_wait = BCW_READ_SR then
    let w := { w with spi := { w.spi with busy_check_wait := BCW_CHECK } }
    let w := hal_cs w true
    let (w, res, rxb) := hal_txrx ctx w [ctx.cmd.read_sr] 1
    ({ w with spi := { w.spi with ibuf := fwrite w.spi.ibuf 0 (rxb.headD (w.spi.ibuf 0)) } }, res)
  else if w.spi.busy_check_wait = BCW_CHECK then
    let w := hal_cs w false
    if spiflash_is_hwbusy ctx.cmd (w.spi.ibuf 0) then
      let w := { w with spi := { w.spi with
        wait_period_ms := DECR_WAIT w.spi.wait_period_ms,
        busy_check_wait := BCW_READ_SR } }
      (hal_wait w w.spi.wait_period_ms, SPIFLASH_OK)
    else
      end_results ctx { w with spi := { w.spi with busy_check_wait := BCW_IDLE } } res0
  else
    end_results ctx w res0

/-! ## Execution driver and public API -/

/-- `SPIFLASH_async_trigger`.  `amode` is the driver's `spi->async` flag; a
fired asynchronous callback is logged into `cbs` as `(operation, err_code)`. -/
def SPIFLASH_async_trigger (ctx : Ctx) (amode : Bool) (w : World) (err_code : Int) :
    World × Int :=
  let (w, res) := end_async ctx w err_code
  let op := w.spi.op
  let w := if res ≠ SPIFLASH_OK then { w with spi := { w.spi with op := Op.IDLE } } else w
  let w := if (res ≠ SPIFLASH_OK ∨ op = Op.IDLE) ∧ amode then
    { w with cbs := w.cbs ++ [(op, res)] } else w
  (w, res)

/-- The synchronous `while (res == SPIFLASH_OK && spi->op != SPIFLASH_OP_IDLE)`
loop of `_spiflash_exe`, fuel-indexed. -/
def exe_loop (ctx : Ctx) : Nat → World → Int → World × Int
  | 0, w, res => (w, res)
  | fuel + 1, w, res =>
    if res = SPIFLASH_OK ∧ w.spi.op ≠ Op.IDLE then
      let p := SPIFLASH_async_trigger ctx false w res
      exe_loop ctx fuel p.1 p.2
    else (w, res)

/-- `_spiflash_exe`. -/
def spiflash_exe (ctx : Ctx) (fuel : Nat) (amode : Bool) (w : World) : World × Int :=
  let w := if w.spi.could_be_busy then
    { w with spi := { w.spi with busy_pre_check := true } } else w
  if amode then begin_async ctx w
  else
    let (w, res) := begin_async ctx w
    let (w, res) := exe_loop ctx fuel w res
    ({ w with spi := spiflash_finalize w.spi }, res)

/-- `SPIFLASH_write`. -/
def SPIFLASH_write (ctx : Ctx) (fuel : Nat) (amode : Bool) (w : World)
    (addr len : Nat) : World × Int :=
  if w.spi.op ≠ Op.IDLE then (w, SPIFLASH_ERR_BUSY)
  else spiflash_exe ctx fuel amode { w with spi :=
    { w.spi with addr := addr, wr_off := 0, len := len, op := Op.WRITE_sWREN } }

/-- `SPIFLASH_read`. -/
def SPIFLASH_read (ctx : Ctx) (fuel : Nat) (amode : Bool) (w : World)
    (addr len : Nat) : World × Int :=
  if w.spi.op ≠ Op.IDLE then (w, SPIFLASH_ERR_BUSY)
  else spiflash_exe ctx fuel amode { w with spi :=
    { w.spi with addr := addr, len := len, op := Op.READ } }

/-- `SPIFLASH_fast_read` (falls back to a plain read when the fast-read
opcode is 0). -/
def SPIFLASH_fast_read (ctx : Ctx) (fuel : Nat) (amode : Bool) (w : World)
    (addr len : Nat) : World × Int :=
  if w.spi.op ≠ Op.IDLE then (w, SPIFLASH_ERR_BUSY)
  else
    let o := if ctx.cmd.read_data_fast ≠ 0 then Op.FAST_READ else Op.READ
    spiflash_exe ctx fuel amode { w with spi :=
      { w.spi with addr := addr, len := len, op := o } }

/-- `SPIFLASH_read_jedec_id`. -/
def SPIFLASH_read_jedec_id (ctx : Ctx) (fuel : Nat) (amode : Bool) (w : World) :
    World × Int :=
  if w.spi.op ≠ Op.IDLE then (w, SPIFLASH_ERR_BUSY)
  else spiflash_exe ctx fuel amode { w with spi := { w.spi with op := Op.READ_JEDEC } }

/-- `SPIFLASH_read_product_id`. -/
def SPIFLASH_read_product_id (ctx : Ctx) (fuel : Nat) (amode : Bool) (w : World) :
    World × Int :=
  if w.spi.op ≠ Op.IDLE then (w, SPIFLASH_ERR_BUSY)
  else spiflash_exe ctx fuel amode { w with spi := { w.spi with op := Op.READ_PRODUCT } }

/-- `SPIFLASH_read_sr`. -/
def SPIFLASH_read_sr (ctx : Ctx) (fuel : Nat) (amode : Bool) (w : World) :
    World × Int :=
  if w.spi.op ≠ Op.IDLE then (w, SPIFLASH_ERR_BUSY)
  else spiflash_exe ctx fuel amode { w with spi := { w.spi with op := Op.READ_SR } }

/-- `SPIFLASH_read_sr_busy`. -/
def SPIFLASH_read_sr_busy (ctx : Ctx) (fuel : Nat) (amode : Bool) (w : World) :
    World × Int :=
  if w.spi.op ≠ Op.IDLE then (w, SPIFLASH_ERR_BUSY)
  else spiflash_exe ctx fuel amode { w with spi := { w.spi with op := Op.READ_SR_BUSY } }

/-- `SPIFLASH_write_sr` (`spi->sr_data = sr` is a write to `ibuf 0`). -/
def SPIFLASH_write_sr (ctx : Ctx) (fuel : Nat) (amode : Bool) (w : World)
    (sr : Nat) : World × Int :=
  if w.spi.op ≠ Op.IDLE then (w, SPIFLASH_ERR_BUSY)
  else spiflash_exe ctx fuel amode { w with spi :=
    { w.spi with ibuf := fwrite w.spi.ibuf 0 sr, op := Op.WRITE_SR_sWREN } }

/-- `SPIFLASH_read_reg` (`spi->reg_nbr = reg` is a write to `ibuf 0`). -/
def SPIFLASH_read_reg (ctx : Ctx) (fuel : Nat) (amode : Bool) (w : World)
    (reg : Nat) : World × Int :=
  if w.spi.op ≠ Op.IDLE then (w, SPIFLASH_ERR_BUSY)
  else spiflash_exe ctx fuel amode { w with spi :=
    { w.spi with ibuf := fwrite w.spi.ibuf 0 reg, op := Op.READ_REG } }

/-- `SPIFLASH_write_reg`. -/
def SPIFLASH_write_reg (ctx : Ctx) (fuel : Nat) (amode : Bool) (w : World)
    (reg data : Nat) (write_en : Bool) (wait_ms : Nat) : World × Int :=
  if w.spi.op ≠ Op.IDLE then (w, SPIFLASH_ERR_BUSY)
  else
    let s := { w.spi with ibuf := fwrite (fwrite w.spi.ibuf 0 reg) 1 data }
    let s := { s with op := if write_en then Op.WRITE_REG_sWREN else Op.WRITE_REG_DATA }
    let s := if write_en then { s with wait_period_ms := wait_ms } else s
    spiflash_exe ctx fuel amode { w with spi := s }

/-- `SPIFLASH_erase`. -/
def SPIFLASH_erase (ctx : Ctx) (fuel : Nat) (amode : Bool) (w : World)
    (addr len : Nat) : World × Int :=
  if w.spi.op ≠ Op.IDLE then (w, SPIFLASH_ERR_BUSY)
  else
    let era_sz := get_largest_erase_area ctx.cmd addr len
    if era_sz = 0 then (w, SPIFLASH_ERR_ERASE_UNALIGNED)
    else spiflash_exe ctx fuel amode { w with spi :=
      { w.spi with addr := addr, len := len, op := Op.ERASE_BLOCK_sWREN } }

/-- `SPIFLASH_chip_erase`. -/
def SPIFLASH_chip_erase (ctx : Ctx) (fuel : Nat) (amode : Bool) (w : World) :
    World × Int :=
  if w.spi.op ≠ Op.IDLE then (w, SPIFLASH_ERR_BUSY)
  else spiflash_exe ctx fuel amode { w with spi := { w.spi with op := Op.ERASE_CHIP_sWREN } }

/-- `SPIFLASH_is_busy`. -/
def SPIFLASH_is_busy (w : World) : Int :=
  if w.spi.op = Op.IDLE then SPIFLASH_OK else SPIFLASH_ERR_BUSY

/-- A public request, for quantifying over the whole API surface. -/
inductive Req where
  | write (addr len : Nat)
  | read (addr len : Nat)
  | fastRead (addr len : Nat)
  | erase (addr len : Nat)
  | chipErase
  | writeSr (sr : Nat)
  | readSr
  | readSrBusy
  | readJedec
  | readProduct
  | readReg (reg : Nat)
  | writeReg (reg data : Nat) (write_en : Bool) (wait_ms : Nat)
  deriving Repr, DecidableEq

/-- Dispatch a public request to its entry point. -/
def dispatch (req : Req) (ctx : Ctx) (fuel : Nat) (amode : Bool) (w : World) :
    World × Int :=
  match req with
  | .write a l => SPIFLASH_write ctx fuel amode w a l
  | .read a l => SPIFLASH_read ctx fuel amode w a l
  | .fastRead a l => SPIFLASH_fast_read ctx fuel amode w a l
  | .erase a l => SPIFLASH_erase ctx fuel amode w a l
  | .chipErase => SPIFLASH_chip_erase ctx fuel amode w
  | .writeSr sr => SPIFLASH_write_sr ctx fuel amode w sr
  | .readSr => SPIFLASH_read_sr ctx fuel amode w
  | .readSrBusy => SPIFLASH_read_sr_busy ctx fuel amode w
  | .readJedec => SPIFLASH_read_jedec_id ctx fuel amode w
  | .readProduct => SPIFLASH_read_product_id ctx fuel amode w
  | .readReg r => SPIFLASH_read_reg ctx fuel amode w r
  | .writeReg r d we wm => SPIFLASH_write_reg ctx fuel amode w r d we wm

/-! ## Asynchronous host driver -/

/-- The asynchronous host: after each posted transport/wait completes, call
`SPIFLASH_async_trigger(spi, 0)`, until the driver goes idle or errs (i.e.
until the asynchronous callback has fired). -/
def hostDrive (ctx : Ctx) : Nat → World → Int → World × Int
  | 0, w, res => (w, res)
  | fuel + 1, w, res =>
    if res = SPIFLASH_OK ∧ w.spi.op ≠ Op.IDLE then
      let p := SPIFLASH_async_trigger ctx true w res
      hostDrive ctx fuel p.1 p.2
    else (w, res)

/-- A complete asynchronous run of a public request: the entry point posts the
first transport request; when it reports an error synchronously no completion
will arrive, otherwise the host drives the engine with successful
completions. -/
def asyncRun (ctx : Ctx) (req : Req) (fuel : Nat) (w : World) : World × Int :=
  let p := dispatch req ctx fuel true w
  if p.2 ≠ SPIFLASH_OK then p else hostDrive ctx fuel p.1 p.2

/-! ## Spec-side definitions (for refinement claims) -/

/-- Following the spec's words (§4.3): the smallest supported erase block in
bytes, or 0 when no erase size is supported. -/
def smallest_supported (c : CmdTbl) : Nat :=
  if c.block_erase_4 ≠ 0 then 4096
  else if c.block_erase_8 ≠ 0 then 8192
  else if c.block_erase_16 ≠ 0 then 16384
  else if c.block_erase_32 ≠ 0 then 32768
  else if c.block_erase_64 ≠ 0 then 65536
  else 0

/-- Following the spec's words (§4.2, §8.3): the splitting of
`[addr, addr+len)` at each multiple of the page size `p` — first chunk
`p - addr % p` or less, then full pages, then the remainder.  Structural
fuel first (every chunk is positive, so `len` is sufficient fuel; the
`c = 0` guard is unreachable for a positive page size). -/
def spec_page_split_f (p : Nat) : Nat → Nat → Nat → List Nat
  | 0, _, _ => []
  | fuel + 1, addr, len =>
    if len = 0 then []
    else
      let c := min len (p - addr % p)
      if c = 0 then []
      else c :: spec_page_split_f p fuel (addr + c) (len - c)

/-- `spec_page_split p addr len`: the spec's page splitting. -/
def spec_page_split (p addr len : Nat) : List Nat := spec_page_split_f p len addr len

/-- The write engine's chunk plan, exactly as `SPIFLASH_OP_WRITE_sDATA`
computes it: entries `(cursor address, buffer offset, chunk size)`.
Structural fuel first. -/
def writePlan_f (p : Nat) : Nat → Nat → Nat → Nat → List (Nat × Nat × Nat)
  | 0, _, _, _ => []
  | fuel + 1, addr, len, off =>
    if len = 0 then []
    else
      let rem := p - (addr &&& (p - 1))
      let c := if len < rem then len else rem
      if c = 0 then []
      else (addr, off, c) :: writePlan_f p fuel ((addr + c) % 2 ^ 32) (len - c) (off + c)

/-- `writePlan p addr len off`: the engine's chunk plan. -/
def writePlan (p addr len off : Nat) : List (Nat × Nat × Nat) :=
  writePlan_f p len addr len off

/-- The HAL events of one write chunk: write-enable frame, page-program
opcode-plus-address frame at the cursor, the payload, then the busy wait
(degenerate when the nominal program time is 0 and the chip reports ready at
the first poll). -/
def chunkEvents (ctx : Ctx) (e : Nat × Nat × Nat) : List Ev :=
  [Ev.cs true, Ev.txrx [ctx.cmd.write_enable] 0, Ev.cs false, Ev.cs true,
   Ev.txrx ([ctx.cmd.page_program] ++ compose_address ctx.cfg e.1 ++
     List.replicate ctx.cfg.addr_dummy_sz 0) 0,
   Ev.txrx ((List.range e.2.2).map (fun i => ctx.wrData (e.2.1 + i))) 0] ++
  (if ctx.cfg.page_program_ms = 0 then [Ev.cs false, Ev.wait 0]
   else [Ev.cs false, Ev.wait ctx.cfg.page_program_ms, Ev.cs true,
         Ev.txrx [ctx.cmd.read_sr] 1, Ev.cs false])

/-- `k`-fold `DECR_WAIT`: the claimed backoff recurrence. -/
def decrIter (T : Nat) : Nat → Nat
  | 0 => T
  | k + 1 => DECR_WAIT (decrIter T k)

/-- The claimed wait-duration sequence `T, ⌊T/2⌋, … ` (floor 1), `m` terms. -/
def backoffSeq (T m : Nat) : List Nat := (List.range m).map (decrIter T)

/-- The wait durations appearing in a trace, in order. -/
def waitsOf (tr : List Ev) : List Nat :=
  tr.filterMap (fun e => match e with | Ev.wait m => some m | _ => none)

/-- The busy-poll trace after the initial wait: `n` busy rounds (SR read,
deassert, halved wait) followed by the ready round (SR read, deassert, and the
deassert of the main machine's finish). -/
def pollTrace (rdsr T n : Nat) : List Ev :=
  ((List.range n).map (fun i =>
    [Ev.cs true, Ev.txrx [rdsr] 1, Ev.cs false, Ev.wait (decrIter T (i + 1))])).flatten ++
  [Ev.cs true, Ev.txrx [rdsr] 1, Ev.cs false, Ev.cs false]

/-! ## Concrete fixtures for witnesses and counterexamples -/

/-- A typical configuration: 1 MB, 256-byte pages, 3-byte big-endian
addresses, no extra dummy bytes. -/
def testCfg : Cfg :=
  { sz := 1 <<< 20, page_sz := 256, addr_sz := 3, addr_dummy_sz := 0,
    addr_endian := 1, sr_write_ms := 10, page_program_ms := 2,
    block_erase_4_ms := 100, block_erase_8_ms := 0, block_erase_16_ms := 0,
    block_erase_32_ms := 200, block_erase_64_ms := 300, chip_erase_ms := 500 }

/-- A HAL whose transports all succeed and whose SR reads report ready. -/
def readyHal : Hal := { txres := fun _ => 0, rx := fun _ => [0] }

/-- A HAL whose every transport fails with -1. -/
def failHal : Hal := { txres := fun _ => -1, rx := fun _ => [0] }

/-- Ready test context over the standard command table. -/
def testCtx : Ctx :=
  { cfg := testCfg, cmd := STD_CMD, hal := readyHal, wrData := fun i => (100 + i) % 256 }

/-- Failing-transport test context. -/
def failCtx : Ctx := { testCtx with hal := failHal }

/-- A HAL reporting busy `nb` times (from the `j`-th SPI call) then ready. -/
def busyHal (j nb : Nat) : Hal :=
  { txres := fun _ => 0, rx := fun k => if j ≤ k ∧ k < j + nb then [1] else [0] }

/-- A world whose driver has an operation in flight. -/
def busyW : World := { spi := { op := Op.READ } }

/-- Context for busy-wait runs: 3 busy SR reads then ready. -/
def pollCtx : Ctx := { cfg := testCfg, cmd := STD_CMD, hal := busyHal 0 3 }

/-- A driver that has just transmitted the write-SR data frame and entered
the busy-wait sub-machine with a nominal 10 ms wait. -/
def pollW : World :=
  { spi := { op := Op.WRITE_SR_sDATA, wait_period_ms := 10, busy_check_wait := 1 } }

/-! # Theorems -/

/-! ## Helper lemmas -/

/-- The planner loop never selects anything when the remaining length is 0
(no erase size `S` satisfies `S ≤ 0`). -/
theorem erase_area_loop_len_zero (alz : Nat) :
    ∀ fuel bm lz res, erase_area_loop alz 0 fuel bm lz res = res := by
  intro fuel
  induction fuel with
  | zero => intro bm lz res; rfl
  | succ f ih =>
    intro bm lz res
    simp only [erase_area_loop]
    split
    · rfl
    · have hpos : 0 < 1 <<< lz := by
        rw [Nat.one_shiftLeft]; exact Nat.pos_pow_of_pos lz (by norm_num)
      have hcond : ¬ (alz ≥ lz ∧ 0 ≥ 1 <<< lz) := by
        rintro ⟨-, hge⟩; omega
      simp only [ge_iff_le, hcond, if_false]
      exact ih _ _ _

/-- A map over `range` whose values are all 0 is a `replicate`. -/
theorem range_map_zero (d : Nat) (f : Nat → Nat) (h : ∀ i < d, f i = 0) :
    (List.range d).map f = List.replicate d 0 := by
  rw [List.eq_replicate_iff]
  refine ⟨by simp, ?_⟩
  intro b hb
  simp only [List.mem_map, List.mem_range] at hb
  obtain ⟨i, hi, rfl⟩ := hb
  exact h i hi

/-- The synchronous loop is a no-op once the driver is idle or errored. -/
theorem exe_loop_done (ctx : Ctx) (f : Nat) (w : World) (res : Int)
    (h : ¬ (res = SPIFLASH_OK ∧ w.spi.op ≠ Op.IDLE)) :
    exe_loop ctx f w res = (w, res) := by
  cases f <;> simp [exe_loop, h]

/-- Reading back the byte just stored in the scratch buffer. -/
theorem fwrite_at (f : Nat → Nat) (i v : Nat) : fwrite f i v i = v := by simp [fwrite]

/-- Iterated halving commutes with one leading halving step. -/
theorem decrIter_shift (T k : Nat) : decrIter (DECR_WAIT T) k = decrIter T (k + 1) := by
  induction k with
  | zero => rfl
  | succ k ih => simp [decrIter, ih]

/-- Peeling one busy round off the front of the poll trace. -/
theorem pollTrace_succ (r T n : Nat) :
    pollTrace r T (n + 1) =
      [Ev.cs true, Ev.txrx [r] 1, Ev.cs false, Ev.wait (DECR_WAIT T)] ++
        pollTrace r (DECR_WAIT T) n := by
  unfold pollTrace
  rw [List.range_succ_eq_map]
  have hm : (List.range n).map
      ((fun i => [Ev.cs true, Ev.txrx [r] 1, Ev.cs false, Ev.wait (decrIter T (i + 1))]) ∘
        Nat.succ) =
      (List.range n).map
      (fun i => [Ev.cs true, Ev.txrx [r] 1, Ev.cs false,
        Ev.wait (decrIter (DECR_WAIT T) (i + 1))]) := by
    apply List.map_congr_left
    intro i _
    simp only [Function.comp_def, decrIter_shift]
  simp only [List.map_cons, List.map_map, hm, List.flatten_cons, List.append_assoc,
    List.cons_append, List.nil_append]
  simp [decrIter]

/-- The wait durations of the poll trace are the iterated halvings. -/
theorem waitsOf_pollTrace (r T n : Nat) :
    waitsOf (pollTrace r T n) = (List.range n).map (fun i => decrIter T (i + 1)) := by
  induction n generalizing T with
  | zero => rfl
  | succ n ih =>
    rw [pollTrace_succ, List.range_succ_eq_map]
    simp only [waitsOf, List.filterMap_append] at *
    simp only [List.map_cons, List.map_map, Function.comp_def]
    have hsh : (List.range n).map (fun i => decrIter T (i + 1 + 1)) =
        (List.range n).map (fun i => decrIter (DECR_WAIT T) (i + 1)) := by
      apply List.map_congr_left
      intro i _
      rw [decrIter_shift]
    rw [ih, ← hsh]
    simp [decrIter]

/-- The busy-wait sub-machine from `BCW_READ_SR` with current period `T`,
driven synchronously against an SR oracle that reports busy `n` times and
then ready: it performs `n` busy rounds (each an SR read followed by a
halved wait), a final ready round, and lets the main machine finish the
pending `WRITE_SR_sDATA` operation. -/
theorem poll_phase (ctx : Ctx) :
    ∀ n (w : World) (f T : Nat),
    w.spi.op = Op.WRITE_SR_sDATA → w.spi.busy_pre_check = false →
    w.spi.busy_check_wait = BCW_READ_SR → w.spi.wait_period_ms = T →
    (∀ i, ctx.hal.txres (w.n + i) = 0) →
    (∀ i, (ctx.hal.rx (w.n + i)).length = 1) →
    (∀ i < n, spiflash_is_hwbusy ctx.cmd ((ctx.hal.rx (w.n + i)).headD 0) = true) →
    spiflash_is_hwbusy ctx.cmd ((ctx.hal.rx (w.n + n)).headD 0) = false →
    (exe_loop ctx (2 * n + 2 + f) w SPIFLASH_OK).2 = SPIFLASH_OK ∧
    (exe_loop ctx (2 * n + 2 + f) w SPIFLASH_OK).1.tr =
      w.tr ++ pollTrace ctx.cmd.read_sr T n ∧
    (exe_loop ctx (2 * n + 2 + f) w SPIFLASH_OK).1.spi.op = Op.IDLE := by
  intro n
  induction n with
  | zero =>
    intro w f T hop hpre hbcw hwp htx hlen hbusy hready
    obtain ⟨b, hb⟩ := List.length_eq_one.mp (hlen 0)
    have htx0 := htx 0
    simp only [Nat.add_zero] at htx0 hb hready
    rw [hb] at hready
    simp only [List.headD_cons] at hready
    refine ⟨?_, ?_, ?_⟩ <;>
    simp [show 2*0+2+f = f+1+1 from by omega, exe_loop, exe_loop_done,
      SPIFLASH_async_trigger, end_async, end_results, begin_async, hal_cs, hal_txrx,
      hal_wait, spiflash_finalize, fwrite, hop, hpre, hbcw, hwp, htx0, hb, hready,
      BCW_IDLE, BCW_WAIT, BCW_READ_SR, BCW_CHECK, SPIFLASH_OK, pollTrace]
  | succ n ih =>
    intro w f T hop hpre hbcw hwp htx hlen hbusy hready
    obtain ⟨b, hb⟩ := List.length_eq_one.mp (hlen 0)
    have htx0 := htx 0
    simp only [Nat.add_zero] at htx0 hb
    have hbusy0 := hbusy 0 (by omega)
    rw [Nat.add_zero, hb] at hbusy0
    simp only [List.headD_cons] at hbusy0
    have hfe : 2 * (n + 1) + 2 + f = (2 * n + 2 + f) + 1 + 1 := by omega
    have hstep : exe_loop ctx ((2 * n + 2 + f) + 1 + 1) w SPIFLASH_OK =
        exe_loop ctx (2 * n + 2 + f)
          { spi := { w.spi with wait_period_ms := DECR_WAIT T,
                                busy_check_wait := BCW_READ_SR,
                                ibuf := fwrite w.spi.ibuf 0 b },
            n := w.n + 1,
            tr := w.tr ++ [Ev.cs true, Ev.txrx [ctx.cmd.read_sr] 1, Ev.cs false,
                           Ev.wait (DECR_WAIT T)],
            cbs := w.cbs } SPIFLASH_OK := by
      simp [exe_loop, SPIFLASH_async_trigger, end_async, end_results, begin_async, hal_cs,
        hal_txrx, hal_wait, spiflash_finalize, fwrite_at, hop, hpre, hbcw, hwp, htx0, hb,
        hbusy0, BCW_IDLE, BCW_WAIT, BCW_READ_SR, BCW_CHECK, SPIFLASH_OK]
    have hres := ih
      { spi := { w.spi with wait_period_ms := DECR_WAIT T,
                            busy_check_wait := BCW_READ_SR,
                            ibuf := fwrite w.spi.ibuf 0 b },
        n := w.n + 1,
        tr := w.tr ++ [Ev.cs true, Ev.txrx [ctx.cmd.read_sr] 1, Ev.cs false,
                       Ev.wait (DECR_WAIT T)],
        cbs := w.cbs } f (DECR_WAIT T)
      (by simpa using hop) (by simpa using hpre) rfl rfl
      (fun i => by have := htx (1 + i); rwa [← Nat.add_assoc] at this)
      (fun i => by have := hlen (1 + i); rwa [← Nat.add_assoc] at this)
      (fun i hi => by
        have := hbusy (1 + i) (by omega)
        rwa [← Nat.add_assoc] at this)
      (by
        have := hready
        rwa [show w.n + (n + 1) = w.n + 1 + n from by omega] at this)
    rw [hfe, hstep]
    refine ⟨hres.1, ?_, hres.2.2⟩
    rw [hres.2.1, pollTrace_succ]
    simp [List.append_assoc]

/-- Layout of the fast-read frame in the scratch buffer: opcode at 0, the
address bytes at 1..addr_sz, the explicit zero written at `addr_sz + 2`, and
every byte at or beyond `addr_sz + 1` that the step does not write coming
from the (clean) scratch buffer. -/
theorem fastread_frame (cfg : Cfg) (ib0 : Nat → Nat) (opc a : Nat)
    (hclean : ∀ j, 1 + cfg.addr_sz ≤ j → ib0 j = 0) :
    ibufSlice (fwrite (fwriteAddr cfg (fwrite ib0 0 opc) a) (1 + cfg.addr_sz + 1) 0)
        (1 + cfg.addr_sz + 1 + cfg.addr_dummy_sz)
      = [opc] ++ compose_address cfg a ++ [0] ++ List.replicate cfg.addr_dummy_sz 0 := by
  set asz := cfg.addr_sz with hasz
  set d := cfg.addr_dummy_sz
  set ib := fwrite (fwriteAddr cfg (fwrite ib0 0 opc) a) (1 + asz + 1) 0 with hib
  have h0 : ib 0 = opc := by
    simp [hib, fwrite, fwriteAddr, Nat.succ_ne_zero]
  have haddr : ∀ i < asz, ib (1 + i) = compose_address_byte cfg a i := by
    intro i hi
    have h1 : ¬ (1 + i = 1 + asz + 1) := by omega
    have h2 : 1 ≤ 1 + i ∧ 1 + i ≤ asz := by omega
    simp [hib, fwrite, fwriteAddr, h1, h2]
  have hdum : ib (1 + asz) = 0 := by
    have h1 : ¬ (1 + asz = 1 + asz + 1) := by omega
    have h2 : ¬ (1 ≤ 1 + asz ∧ 1 + asz ≤ asz) := by omega
    simp [hib, fwrite, fwriteAddr, h1, h2, Nat.succ_ne_zero]
    exact hclean _ (le_refl _)
  have htail : ∀ i < d, ib (1 + asz + 1 + i) = 0 := by
    intro i hi
    by_cases h1 : i = 0
    · subst h1; simp [hib, fwrite]
    · have h2 : ¬ (1 + asz + 1 + i = 1 + asz + 1) := by omega
      have h3 : ¬ (1 ≤ 1 + asz + 1 + i ∧ 1 + asz + 1 + i ≤ asz) := by omega
      simp [hib, fwrite, fwriteAddr, h2, h3, Nat.succ_ne_zero]
      exact hclean _ (by omega)
  have hseg1 : (List.range 1).map ib = [opc] := by
    simp [show List.range 1 = [0] from rfl, h0]
  have hseg2 : (List.range asz).map (fun i => ib (1 + i)) = compose_address cfg a := by
    unfold compose_address
    rw [← hasz]
    apply List.map_congr_left
    intro i hi
    simp only [List.mem_range] at hi
    exact haddr i hi
  have hseg3 : (List.range 1).map (fun i => ib (1 + asz + i)) = [0] := by
    simp [show List.range 1 = [0] from rfl]
    simpa using hdum
  have hseg4 : (List.range d).map (fun i => ib (1 + asz + 1 + i)) = List.replicate d 0 :=
    range_map_zero d _ htail
  unfold ibufSlice
  rw [List.range_add, List.map_append, List.map_map]
  rw [show 1 + asz + 1 = (1 + asz) + 1 from rfl, List.range_add, List.map_append, List.map_map]
  rw [List.range_add, List.map_append, List.map_map]
  simp only [Function.comp_def]
  rw [hseg1, hseg2, hseg3, hseg4]

/-- When at least one erase size is supported, `1 <<< (clz bm + 8)` — the
divisor against which `_spiflash_get_largest_erase_area` checks `len` — is
exactly the smallest supported erase block size. -/
theorem clz_mask_smallest (c : CmdTbl) (h : get_supported_block_mask c ≠ 0) :
    1 <<< (spiflash_clz (get_supported_block_mask c) + 8) = smallest_supported c := by
  unfold get_supported_block_mask smallest_supported at *
  by_cases h4 : c.block_erase_4 = 0 <;> by_cases h8 : c.block_erase_8 = 0 <;>
    by_cases h16 : c.block_erase_16 = 0 <;> by_cases h32 : c.block_erase_32 = 0 <;>
    by_cases h64 : c.block_erase_64 = 0 <;>
    simp only [h4, h8, h16, h32, h64, ne_eq, not_true_eq_false, not_false_eq_true,
      if_true, if_false, ite_true, ite_false] at * <;>
    first
      | (exact absurd rfl h)
      | decide

/-- The spec's page splitting sums to the original length. -/
theorem spec_split_sum (p : Nat) (hp : 0 < p) :
    ∀ fuel a len, len ≤ fuel → (spec_page_split_f p fuel a len).sum = len := by
  intro fuel
  induction fuel with
  | zero => intro a len hle; interval_cases len; rfl
  | succ f ih =>
    intro a len hle
    by_cases h0 : len = 0
    · subst h0; rfl
    · have hrem : 0 < p - a % p := by
        have := Nat.mod_lt a hp
        omega
      have hc : min len (p - a % p) ≠ 0 := by
        have : 0 < min len (p - a % p) := lt_min (Nat.pos_of_ne_zero h0) hrem
        omega
      rw [spec_page_split_f]
      simp only [h0, if_false, hc, List.sum_cons]
      rw [ih (a + min len (p - a % p)) (len - min len (p - a % p)) (by omega)]
      have : min len (p - a % p) ≤ len := Nat.min_le_left _ _
      omega

/-- The engine's chunk sizes equal the spec's page splitting (for a
power-of-two page size not exceeding 2^32; the cursor lives modulo 2^32 but
chunk sizes depend on it only modulo the page size). -/
theorem plan_sizes_eq_spec (k : Nat) (h32 : k ≤ 32) :
    ∀ fuel a a2 len off, a % 2 ^ k = a2 % 2 ^ k →
    (writePlan_f (2 ^ k) fuel a len off).map (fun e => e.2.2) =
      spec_page_split_f (2 ^ k) fuel a2 len := by
  intro fuel
  induction fuel with
  | zero => intro a a2 len off hcong; rfl
  | succ f ih =>
    intro a a2 len off hcong
    rw [writePlan_f, spec_page_split_f]
    by_cases h0 : len = 0
    · simp [h0]
    · simp only [h0, if_false]
      have hmask : a &&& (2 ^ k - 1) = a2 % 2 ^ k := by
        rw [Nat.and_pow_two_sub_one_eq_mod, hcong]
      have hminf : (if len < 2 ^ k - (a &&& (2 ^ k - 1)) then len
          else 2 ^ k - (a &&& (2 ^ k - 1))) = min len (2 ^ k - a2 % 2 ^ k) := by
        rw [hmask, Nat.min_def]
        split <;> split <;> omega
      rw [hminf]
      by_cases hc : min len (2 ^ k - a2 % 2 ^ k) = 0
      · simp [hc]
      · simp only [hc, if_false, List.map_cons, List.cons.injEq, true_and]
        apply ih
        have hdvd : 2 ^ k ∣ 2 ^ 32 := pow_dvd_pow 2 h32
        rw [Nat.mod_mod_of_dvd _ hdvd]
        conv_lhs => rw [Nat.add_mod]
        conv_rhs => rw [Nat.add_mod]
        rw [hcong]

/-- Layout of the page-program (and erase) opcode-plus-address frame in the
scratch buffer. -/
theorem write_addr_frame (cfg : Cfg) (ib0 : Nat → Nat) (opc a : Nat)
    (hclean : ∀ j, 1 + cfg.addr_sz ≤ j → ib0 j = 0) :
    ibufSlice (fwriteAddr cfg (fwrite ib0 0 opc) a) (1 + cfg.addr_sz + cfg.addr_dummy_sz)
      = [opc] ++ compose_address cfg a ++ List.replicate cfg.addr_dummy_sz 0 := by
  set asz := cfg.addr_sz with hasz
  set d := cfg.addr_dummy_sz
  set ib := fwriteAddr cfg (fwrite ib0 0 opc) a with hib
  have h0 : ib 0 = opc := by
    simp [hib, fwrite, fwriteAddr]
  have haddr : ∀ i < asz, ib (1 + i) = compose_address_byte cfg a i := by
    intro i hi
    have h2 : 1 ≤ 1 + i ∧ 1 + i ≤ asz := by omega
    simp [hib, fwriteAddr, h2]
  have htail : ∀ i < d, ib (1 + asz + i) = 0 := by
    intro i hi
    have h3 : ¬ (1 ≤ 1 + asz + i ∧ 1 + asz + i ≤ asz) := by omega
    simp [hib, fwrite, fwriteAddr, h3, Nat.succ_ne_zero]
    exact hclean _ (by omega)
  have hseg1 : (List.range 1).map ib = [opc] := by
    simp [show List.range 1 = [0] from rfl, h0]
  have hseg2 : (List.range asz).map (fun i => ib (1 + i)) = compose_address cfg a := by
    unfold compose_address
    rw [← hasz]
    apply List.map_congr_left
    intro i hi
    simp only [List.mem_range] at hi
    exact haddr i hi
  have hseg4 : (List.range d).map (fun i => ib (1 + asz + i)) = List.replicate d 0 :=
    range_map_zero d _ htail
  unfold ibufSlice
  rw [List.range_add, List.map_append, List.map_map]
  rw [List.range_add, List.map_append, List.map_map]
  simp only [Function.comp_def]
  rw [hseg1, hseg2, hseg4]

/-- The chunk plan does not depend on the fuel, as long as it suffices. -/
theorem writePlan_f_irrel (p : Nat) :
    ∀ f1 f2 a len off, len ≤ f1 → len ≤ f2 →
    writePlan_f p f1 a len off = writePlan_f p f2 a len off := by
  intro f1
  induction f1 with
  | zero =>
    intro f2 a len off h1 h2
    interval_cases len
    cases f2 <;> rfl
  | succ f ih =>
    intro f2 a len off h1 h2
    by_cases h0 : len = 0
    · subst h0; cases f2 <;> rfl
    · obtain ⟨g, rfl⟩ : ∃ g, f2 = g + 1 := ⟨f2 - 1, by omega⟩
      rw [writePlan_f, writePlan_f]
      simp only [h0, if_false]
      by_cases hc : (if len < p - (a &&& (p - 1)) then len else p - (a &&& (p - 1))) = 0
      · simp [hc]
      · have hcle : (if len < p - (a &&& (p - 1)) then len else p - (a &&& (p - 1))) ≤ len := by
          split <;> omega
        simp only [hc, if_false, List.cons.injEq, true_and]
        apply ih <;> omega

/-- Unfolding one chunk of the plan. -/
theorem writePlan_cons (p a len off : Nat) (h0 : len ≠ 0)
    (hc : (if len < p - (a &&& (p - 1)) then len else p - (a &&& (p - 1))) ≠ 0) :
    writePlan p a len off =
      (a, off, (if len < p - (a &&& (p - 1)) then len else p - (a &&& (p - 1)))) ::
      writePlan p ((a + (if len < p - (a &&& (p - 1)) then len
          else p - (a &&& (p - 1)))) % 2 ^ 32)
        (len - (if len < p - (a &&& (p - 1)) then len else p - (a &&& (p - 1))))
        (off + (if len < p - (a &&& (p - 1)) then len else p - (a &&& (p - 1)))) := by
  unfold writePlan
  obtain ⟨g, hg⟩ : ∃ g, len = g + 1 := ⟨len - 1, by omega⟩
  rw [hg, writePlan_f]
  simp only [Nat.succ_ne_zero, if_false, hg ▸ hc, ← hg]
  simp only [h0, if_false, hc, List.cons.injEq, true_and]
  have hcle : (if len < p - (a &&& (p - 1)) then len else p - (a &&& (p - 1))) ≤ len := by
    split <;> omega
  apply writePlan_f_irrel <;> omega

/-- The empty plan. -/
theorem writePlan_zero (p x y : Nat) : writePlan p x 0 y = [] := rfl

/-- The write engine from `WRITE_sWREN` (write-enable frame just emitted),
run synchronously against an always-ready chip: it emits exactly the chunk
plan's event stream and goes idle. -/
theorem write_run (ctx : Ctx) (k : Nat) (hk : ctx.cfg.page_sz = 2 ^ k) (h32 : k ≤ 32)
    (htx : ∀ i, ctx.hal.txres i = 0) (hrx : ∀ i, ctx.hal.rx i = [0]) :
    ∀ fuel len, len ≤ fuel → len ≠ 0 → ∀ (w : World) (a off f : Nat),
    w.spi.op = Op.WRITE_sWREN → w.spi.busy_pre_check = false →
    w.spi.busy_check_wait = BCW_IDLE →
    w.spi.addr = a → w.spi.len = len → w.spi.wr_off = off →
    (∀ j, 1 + ctx.cfg.addr_sz ≤ j → w.spi.ibuf j = 0) →
    ((exe_loop ctx (5 * len + f)
        { w with n := w.n + 1, tr := w.tr ++ [Ev.cs true, Ev.txrx [ctx.cmd.write_enable] 0] }
        SPIFLASH_OK).2 = SPIFLASH_OK ∧
     (exe_loop ctx (5 * len + f)
        { w with n := w.n + 1, tr := w.tr ++ [Ev.cs true, Ev.txrx [ctx.cmd.write_enable] 0] }
        SPIFLASH_OK).1.tr =
       w.tr ++ ((writePlan (2 ^ k) a len off).map (chunkEvents ctx)).flatten ++ [Ev.cs false] ∧
     (exe_loop ctx (5 * len + f)
        { w with n := w.n + 1, tr := w.tr ++ [Ev.cs true, Ev.txrx [ctx.cmd.write_enable] 0] }
        SPIFLASH_OK).1.spi.op = Op.IDLE) := by
  intro fuel
  induction fuel with
  | zero => intro len hle h0; omega
  | succ fu ih =>
    intro len hle h0 w a off f hop hpre hbcw haddr hlen hoff hclean
    set cexp := if len < 2 ^ k - a % 2 ^ k then len else 2 ^ k - a % 2 ^ k with hcexp
    have hck : a % 2 ^ k < 2 ^ k := Nat.mod_lt _ (Nat.pos_pow_of_pos k (by norm_num))
    have hcpos : cexp ≠ 0 := by rw [hcexp]; split <;> omega
    have hcle : cexp ≤ len := by rw [hcexp]; split <;> omega
    have hcand : (if len < 2 ^ k - (a &&& (2 ^ k - 1)) then len
        else 2 ^ k - (a &&& (2 ^ k - 1))) = cexp := by
      rw [Nat.and_pow_two_sub_one_eq_mod, hcexp]
    have hplan := writePlan_cons (2 ^ k) a len off h0 (hcand ▸ hcpos)
    rw [hcand] at hplan
    have hframe := write_addr_frame ctx.cfg w.spi.ibuf ctx.cmd.page_program a hclean
    by_cases hT : ctx.cfg.page_program_ms = 0
    · by_cases hfin : len - cexp = 0
      · rw [show 5 * len + f = (5 * len + f - 4) + 1 + 1 + 1 + 1 from by omega]
        refine ⟨?_, ?_, ?_⟩ <;>
        simp [exe_loop, exe_loop_done, SPIFLASH_async_trigger, end_async, end_results,
          begin_async, hal_cs, hal_txrx, hal_wait, spiflash_finalize, fwrite_at, hop,
          hpre, hbcw, haddr, hlen, hoff, hclean, hframe, htx, hrx, hT, hk, ← hcexp,
          hfin, hcpos, hplan, chunkEvents, writePlan_zero,
          BCW_IDLE, BCW_WAIT, BCW_READ_SR, BCW_CHECK, SPIFLASH_OK]
      · -- T = 0, more chunks
        have hstep : exe_loop ctx ((5 * (len - cexp) + (5 * cexp + f - 4)) + 1 + 1 + 1 + 1)
            { w with n := w.n + 1,
                     tr := w.tr ++ [Ev.cs true, Ev.txrx [ctx.cmd.write_enable] 0] }
            SPIFLASH_OK =
            exe_loop ctx (5 * (len - cexp) + (5 * cexp + f - 4))
            { spi := { w.spi with op := Op.WRITE_sWREN, wait_period_ms := 0,
                                  addr := (a + cexp) % 2 ^ 32, len := len - cexp,
                                  wr_off := off + cexp, busy_check_wait := 0,
                                  ibuf := fwriteAddr ctx.cfg
                                    (fwrite w.spi.ibuf 0 ctx.cmd.page_program) a },
              n := w.n + 1 + 1 + 1 + 1,
              tr := w.tr ++ [Ev.cs true, Ev.txrx [ctx.cmd.write_enable] 0, Ev.cs false,
                Ev.cs true,
                Ev.txrx ([ctx.cmd.page_program] ++ compose_address ctx.cfg a ++
                  List.replicate ctx.cfg.addr_dummy_sz 0) 0,
                Ev.txrx ((List.range cexp).map (fun i => ctx.wrData (off + i))) 0,
                Ev.cs false, Ev.wait 0, Ev.cs true, Ev.txrx [ctx.cmd.write_enable] 0],
              cbs := w.cbs } SPIFLASH_OK := by
          simp [exe_loop, SPIFLASH_async_trigger, end_async, end_results, begin_async,
            hal_cs, hal_txrx, hal_wait, spiflash_finalize, fwrite_at, hop, hpre, hbcw,
            haddr, hlen, hoff, hclean, hframe, htx, hrx, hT, hk, ← hcexp, hfin, hcpos,
            BCW_IDLE, BCW_WAIT, BCW_READ_SR, BCW_CHECK, SPIFLASH_OK]
        have hres := ih (len - cexp) (by omega) hfin
          { spi := { w.spi with op := Op.WRITE_sWREN, wait_period_ms := 0,
                                addr := (a + cexp) % 2 ^ 32, len := len - cexp,
                                wr_off := off + cexp, busy_check_wait := 0,
                                ibuf := fwriteAddr ctx.cfg
                                  (fwrite w.spi.ibuf 0 ctx.cmd.page_program) a },
            n := w.n + 1 + 1 + 1,
            tr := w.tr ++ [Ev.cs true, Ev.txrx [ctx.cmd.write_enable] 0, Ev.cs false,
              Ev.cs true,
              Ev.txrx ([ctx.cmd.page_program] ++ compose_address ctx.cfg a ++
                List.replicate ctx.cfg.addr_dummy_sz 0) 0,
              Ev.txrx ((List.range cexp).map (fun i => ctx.wrData (off + i))) 0,
              Ev.cs false, Ev.wait 0],
            cbs := w.cbs }
          ((a + cexp) % 2 ^ 32) (off + cexp) (5 * cexp + f - 4)
          rfl (by simpa using hpre) rfl rfl rfl rfl
          (fun j hj => by
            have h1 : ¬ (1 ≤ j ∧ j ≤ ctx.cfg.addr_sz) := by omega
            have h2 : j ≠ 0 := by omega
            simp only [fwriteAddr, fwrite, h1, h2, if_false]
            exact hclean j hj)
        rw [show 5 * len + f = (5 * (len - cexp) + (5 * cexp + f - 4)) + 1 + 1 + 1 + 1
          from by omega, hstep]
        simp only [List.append_assoc, List.cons_append, List.nil_append] at hres ⊢
        refine ⟨hres.1, ?_, hres.2.2⟩
        rw [hres.2.1, hplan]
        simp [chunkEvents, hT, List.append_assoc]
    · by_cases hfin : len - cexp = 0
      · rw [show 5 * len + f = (5 * len + f - 5) + 1 + 1 + 1 + 1 + 1 from by omega]
        refine ⟨?_, ?_, ?_⟩ <;>
        simp [exe_loop, exe_loop_done, SPIFLASH_async_trigger, end_async, end_results,
          begin_async, hal_cs, hal_txrx, hal_wait, spiflash_finalize, fwrite_at,
          spiflash_is_hwbusy, hop, hpre, hbcw, haddr, hlen, hoff, hclean, hframe, htx,
          hrx, hT, hk, ← hcexp, hfin, hcpos, hplan, chunkEvents, writePlan_zero,
          BCW_IDLE, BCW_WAIT, BCW_READ_SR, BCW_CHECK, SPIFLASH_OK]
      · -- T ≠ 0, more chunks
        have hstep : exe_loop ctx
            ((5 * (len - cexp) + (5 * cexp + f - 5)) + 1 + 1 + 1 + 1 + 1)
            { w with n := w.n + 1,
                     tr := w.tr ++ [Ev.cs true, Ev.txrx [ctx.cmd.write_enable] 0] }
            SPIFLASH_OK =
            exe_loop ctx (5 * (len - cexp) + (5 * cexp + f - 5))
            { spi := { w.spi with op := Op.WRITE_sWREN,
                                  wait_period_ms := ctx.cfg.page_program_ms,
                                  addr := (a + cexp) % 2 ^ 32, len := len - cexp,
                                  wr_off := off + cexp, busy_check_wait := 0,
                                  ibuf := fwrite (fwriteAddr ctx.cfg
                                    (fwrite w.spi.ibuf 0 ctx.cmd.page_program) a) 0 0 },
              n := w.n + 1 + 1 + 1 + 1 + 1,
              tr := w.tr ++ [Ev.cs true, Ev.txrx [ctx.cmd.write_enable] 0, Ev.cs false,
                Ev.cs true,
                Ev.txrx ([ctx.cmd.page_program] ++ compose_address ctx.cfg a ++
                  List.replicate ctx.cfg.addr_dummy_sz 0) 0,
                Ev.txrx ((List.range cexp).map (fun i => ctx.wrData (off + i))) 0,
                Ev.cs false, Ev.wait ctx.cfg.page_program_ms, Ev.cs true,
                Ev.txrx [ctx.cmd.read_sr] 1, Ev.cs false, Ev.cs true,
                Ev.txrx [ctx.cmd.write_enable] 0],
              cbs := w.cbs } SPIFLASH_OK := by
          simp [exe_loop, SPIFLASH_async_trigger, end_async, end_results, begin_async,
            hal_cs, hal_txrx, hal_wait, spiflash_finalize, fwrite_at, spiflash_is_hwbusy,
            hop, hpre, hbcw, haddr, hlen, hoff, hclean, hframe, htx, hrx, hT, hk,
            ← hcexp, hfin, hcpos,
            BCW_IDLE, BCW_WAIT, BCW_READ_SR, BCW_CHECK, SPIFLASH_OK]
        have hres := ih (len - cexp) (by omega) hfin
          { spi := { w.spi with op := Op.WRITE_sWREN,
                                wait_period_ms := ctx.cfg.page_program_ms,
                                addr := (a + cexp) % 2 ^ 32, len := len - cexp,
                                wr_off := off + cexp, busy_check_wait := 0,
                                ibuf := fwrite (fwriteAddr ctx.cfg
                                  (fwrite w.spi.ibuf 0 ctx.cmd.page_program) a) 0 0 },
            n := w.n + 1 + 1 + 1 + 1,
            tr := w.tr ++ [Ev.cs true, Ev.txrx [ctx.cmd.write_enable] 0, Ev.cs false,
              Ev.cs true,
              Ev.txrx ([ctx.cmd.page_program] ++ compose_address ctx.cfg a ++
                List.replicate ctx.cfg.addr_dummy_sz 0) 0,
              Ev.txrx ((List.range cexp).map (fun i => ctx.wrData (off + i))) 0,
              Ev.cs false, Ev.wait ctx.cfg.page_program_ms, Ev.cs true,
              Ev.txrx [ctx.cmd.read_sr] 1, Ev.cs false],
            cbs := w.cbs }
          ((a + cexp) % 2 ^ 32) (off + cexp) (5 * cexp + f - 5)
          rfl (by simpa using hpre) rfl rfl rfl rfl
          (fun j hj => by
            have h1 : ¬ (1 ≤ j ∧ j ≤ ctx.cfg.addr_sz) := by omega
            have h2 : j ≠ 0 := by omega
            simp only [fwriteAddr, fwrite, h1, h2, if_false]
            exact hclean j hj)
        rw [show 5 * len + f = (5 * (len - cexp) + (5 * cexp + f - 5)) + 1 + 1 + 1 + 1 + 1
          from by omega, hstep]
        simp only [List.append_assoc, List.cons_append, List.nil_append] at hres ⊢
        refine ⟨hres.1, ?_, hres.2.2⟩
        rw [hres.2.1, hplan]
        simp [chunkEvents, hT, List.append_assoc]


/-! ## Claims -/

/-- C1: the claim states that every accepted erase request is processed in
steps whose chosen size `S` always divides the current address (`addr = 0`
aside).  The code contradicts this: `_spiflash_clz` returns 32 for every odd
input (the De Bruijn table entry 0 was changed from 0 to 32), so an odd
address is treated as aligned to every size.  With the standard command
table, `erase(1, 4096)` is accepted, completes with `SPIFLASH_OK`, and emits
a 4K block-erase frame addressed at 1, although 4096 does not divide 1. -/
theorem C1_erase_accepts_odd_address :
    spiflash_clz 1 = 32 ∧
    get_largest_erase_area STD_CMD 1 4096 = 4096 ∧ ¬ (4096 ∣ 1) ∧
    (SPIFLASH_erase testCtx 64 false {} 1 4096).2 = SPIFLASH_OK ∧
    Ev.txrx [0x20, 0x00, 0x00, 0x01] 0 ∈ (SPIFLASH_erase testCtx 64 false {} 1 4096).1.tr := by
  decide

/-- C2: the claim states that on any error the driver returns to
`op = Idle` with the wait state cleared by the time the error surfaces, so
the next request is not rejected with BusyDriver.  The code contradicts
this: when the very first transport call of a synchronous request fails,
`_spiflash_exe` runs `_spiflash_finalize` (which does not touch `op`) and no
`SPIFLASH_async_trigger` ever resets `op`, so the driver stays in
`WRITE_sWREN` and the immediately following request is rejected with
`SPIFLASH_ERR_BUSY`. -/
theorem C2_first_frame_error_leaves_driver_busy :
    (SPIFLASH_write failCtx 50 false {} 0 1).2 = -1 ∧
    (SPIFLASH_write failCtx 50 false {} 0 1).1.spi.op = Op.WRITE_sWREN ∧
    (SPIFLASH_write failCtx 50 false
        (SPIFLASH_write failCtx 50 false {} 0 1).1 0 1).2 = SPIFLASH_ERR_BUSY := by
  decide

/-- C4 (counterexample): the claim states that with `addr = 0x01020304` and
`addr_sz = 3` the big-endian encoder emits `01 02 03`.  The code truncates
the high byte `0x01` and emits the low three bytes MSB-first: `02 03 04`. -/
theorem C4_big_endian_counterexample :
    ¬ (compose_address { addr_sz := 3, addr_endian := 1 } 0x01020304 = [0x01, 0x02, 0x03] ∧
       compose_address { addr_sz := 3, addr_endian := 0 } 0x01020304 = [0x04, 0x03, 0x02]) := by
  decide

/-- C4 (amended): for `addr = 0x01020304` and `addr_sz = 3`, the big-endian
configuration emits `02 03 04` (the high byte is truncated, the remaining
bytes go MSB first) and the little-endian configuration emits `04 03 02`. -/
theorem C4_address_endianness :
    compose_address { addr_sz := 3, addr_endian := 1 } 0x01020304 = [0x02, 0x03, 0x04] ∧
    compose_address { addr_sz := 3, addr_endian := 0 } 0x01020304 = [0x04, 0x03, 0x02] := by
  decide

/-- C9: every public entry point called while an operation is in flight
(`op ≠ Idle`) returns `SPIFLASH_ERR_BUSY`, invokes no HAL function and
leaves the whole world (driver state, call count, trace) unchanged. -/
theorem C9_second_request_rejected (req : Req) (ctx : Ctx) (fuel : Nat) (amode : Bool)
    (w : World) (h : w.spi.op ≠ Op.IDLE) :
    dispatch req ctx fuel amode w = (w, SPIFLASH_ERR_BUSY) := by
  cases req <;>
    simp [dispatch, SPIFLASH_write, SPIFLASH_read, SPIFLASH_fast_read, SPIFLASH_erase,
      SPIFLASH_chip_erase, SPIFLASH_write_sr, SPIFLASH_read_sr, SPIFLASH_read_sr_busy,
      SPIFLASH_read_jedec_id, SPIFLASH_read_product_id, SPIFLASH_read_reg,
      SPIFLASH_write_reg, h]

/-- Witness for C9 at a concrete in-flight world and request. -/
theorem C9_second_request_rejected_witness :
    busyW.spi.op ≠ Op.IDLE ∧
    dispatch (Req.write 0 4) testCtx 5 false busyW = (busyW, SPIFLASH_ERR_BUSY) :=
  ⟨by decide, C9_second_request_rejected (Req.write 0 4) testCtx 5 false busyW (by decide)⟩

/-- C10: `erase(addr, 0)` from an idle driver returns
`SPIFLASH_ERR_ERASE_UNALIGNED` with no SPI activity and no state change:
the planner returns 0 because no supported size `S` satisfies `S ≤ 0`, and
the entry point maps the zero planner result to ErasureUnaligned. -/
theorem C10_erase_zero_length (ctx : Ctx) (fuel : Nat) (amode : Bool) (w : World)
    (addr : Nat) (hidle : w.spi.op = Op.IDLE) :
    get_largest_erase_area ctx.cmd addr 0 = 0 ∧
    SPIFLASH_erase ctx fuel amode w addr 0 = (w, SPIFLASH_ERR_ERASE_UNALIGNED) := by
  have hp : get_largest_erase_area ctx.cmd addr 0 = 0 := by
    unfold get_largest_erase_area
    simp [erase_area_loop_len_zero]
  refine ⟨hp, ?_⟩
  unfold SPIFLASH_erase
  simp [hidle, hp]

/-- C7: when the erase length is not a multiple of the smallest supported
erase block size, `SPIFLASH_erase` returns `SPIFLASH_ERR_ERASE_UNALIGNED`,
invokes no HAL function and leaves the world unchanged (so `op` stays
Idle). -/
theorem C7_unaligned_erase_rejected (ctx : Ctx) (fuel : Nat) (amode : Bool) (w : World)
    (addr len : Nat) (hidle : w.spi.op = Op.IDLE)
    (hsup : get_supported_block_mask ctx.cmd ≠ 0)
    (hnal : ¬ (smallest_supported ctx.cmd ∣ len)) :
    SPIFLASH_erase ctx fuel amode w addr len = (w, SPIFLASH_ERR_ERASE_UNALIGNED) := by
  have hm := clz_mask_smallest ctx.cmd hsup
  have h2 : smallest_supported ctx.cmd =
      2 ^ (spiflash_clz (get_supported_block_mask ctx.cmd) + 8) := by
    rw [← hm, Nat.one_shiftLeft]
  have hmod : len % 2 ^ (spiflash_clz (get_supported_block_mask ctx.cmd) + 8) ≠ 0 := by
    intro hc
    exact hnal (h2 ▸ Nat.dvd_of_mod_eq_zero hc)
  have hzero : get_largest_erase_area ctx.cmd addr len = 0 := by
    unfold get_largest_erase_area
    simp [Nat.one_shiftLeft, Nat.and_pow_two_sub_one_eq_mod, hmod]
  unfold SPIFLASH_erase
  simp [hidle, hzero]

/-- Witness for C7: `len = 100` is not a multiple of the smallest supported
block (4K) of the standard command table. -/
theorem C7_unaligned_erase_rejected_witness :
    (({} : World)).spi.op = Op.IDLE ∧ get_supported_block_mask testCtx.cmd ≠ 0 ∧
    ¬ (smallest_supported testCtx.cmd ∣ 100) ∧
    SPIFLASH_erase testCtx 5 false {} 0 100 = ({}, SPIFLASH_ERR_ERASE_UNALIGNED) :=
  ⟨rfl, by decide, by decide,
   C7_unaligned_erase_rejected testCtx 5 false {} 0 100 rfl (by decide) (by decide)⟩

/-- C5: a wait-bearing step (here: write-SR data, which entered the
busy-wait sub-machine with nominal period `T > 0`) against an SR oracle
reporting busy `n` times then ready: the durations passed to `hal.wait` are
exactly `backoffSeq T (n+1) = [T, ⌊T/2⌋, …]` (each successive value the
floor-half of the previous with floor 1 ms), the final SR read is busy-clear
by hypothesis, and the main machine then continues to completion. -/
theorem C5_busy_wait_backoff (ctx : Ctx) (n f T : Nat) (w : World)
    (hop : w.spi.op = Op.WRITE_SR_sDATA) (hpre : w.spi.busy_pre_check = false)
    (hbcw : w.spi.busy_check_wait = BCW_WAIT) (hwp : w.spi.wait_period_ms = T)
    (hT : T ≠ 0)
    (htx : ∀ i, ctx.hal.txres (w.n + i) = 0)
    (hlen : ∀ i, (ctx.hal.rx (w.n + i)).length = 1)
    (hbusy : ∀ i < n, spiflash_is_hwbusy ctx.cmd ((ctx.hal.rx (w.n + i)).headD 0) = true)
    (hready : spiflash_is_hwbusy ctx.cmd ((ctx.hal.rx (w.n + n)).headD 0) = false) :
    (exe_loop ctx (2 * n + 3 + f) w SPIFLASH_OK).2 = SPIFLASH_OK ∧
    (exe_loop ctx (2 * n + 3 + f) w SPIFLASH_OK).1.tr =
      w.tr ++ [Ev.cs false, Ev.wait T] ++ pollTrace ctx.cmd.read_sr T n ∧
    waitsOf ([Ev.cs false, Ev.wait T] ++ pollTrace ctx.cmd.read_sr T n) =
      backoffSeq T (n + 1) ∧
    (exe_loop ctx (2 * n + 3 + f) w SPIFLASH_OK).1.spi.op = Op.IDLE := by
  have hwaits : waitsOf ([Ev.cs false, Ev.wait T] ++ pollTrace ctx.cmd.read_sr T n) =
      backoffSeq T (n + 1) := by
    simp only [waitsOf, List.filterMap_append, backoffSeq, List.range_succ_eq_map,
      List.map_cons, List.map_map, Function.comp_def]
    rw [← waitsOf_pollTrace ctx.cmd.read_sr T n]
    rfl
  have hstep1 : exe_loop ctx ((2 * n + 2 + f) + 1) w SPIFLASH_OK =
      exe_loop ctx (2 * n + 2 + f)
        { spi := { w.spi with busy_check_wait := BCW_READ_SR },
          n := w.n,
          tr := w.tr ++ [Ev.cs false, Ev.wait T],
          cbs := w.cbs } SPIFLASH_OK := by
    simp [exe_loop, SPIFLASH_async_trigger, end_async, end_results, begin_async, hal_cs,
      hal_txrx, hal_wait, spiflash_finalize, fwrite_at, hop, hpre, hbcw, hwp, hT,
      BCW_IDLE, BCW_WAIT, BCW_READ_SR, BCW_CHECK, SPIFLASH_OK]
  have hres := poll_phase ctx n
    { spi := { w.spi with busy_check_wait := BCW_READ_SR },
      n := w.n,
      tr := w.tr ++ [Ev.cs false, Ev.wait T],
      cbs := w.cbs } f T
    (by simpa using hop) (by simpa using hpre) rfl (by simpa using hwp)
    htx hlen hbusy hready
  rw [show 2 * n + 3 + f = (2 * n + 2 + f) + 1 from by omega, hstep1]
  refine ⟨hres.1, ?_, hwaits, hres.2.2⟩
  rw [hres.2.1]

/-- Witness for C5: nominal period 10 ms, three busy reads then ready; the
wait durations are 10, 5, 2, 1. -/
theorem C5_busy_wait_backoff_witness :
    (10 : Nat) ≠ 0 ∧
    ((exe_loop pollCtx (2 * 3 + 3 + 0) pollW SPIFLASH_OK).2 = SPIFLASH_OK ∧
     (exe_loop pollCtx (2 * 3 + 3 + 0) pollW SPIFLASH_OK).1.tr =
       pollW.tr ++ [Ev.cs false, Ev.wait 10] ++ pollTrace pollCtx.cmd.read_sr 10 3 ∧
     waitsOf ([Ev.cs false, Ev.wait 10] ++ pollTrace pollCtx.cmd.read_sr 10 3) =
       backoffSeq 10 (3 + 1) ∧
     (exe_loop pollCtx (2 * 3 + 3 + 0) pollW SPIFLASH_OK).1.spi.op = Op.IDLE) :=
  ⟨by decide,
   C5_busy_wait_backoff pollCtx 3 0 10 pollW rfl rfl rfl rfl (by decide)
     (fun i => rfl)
     (fun i => by
       simp only [pollCtx, pollW, busyHal]
       split <;> rfl)
     (fun i hi => by interval_cases i <;> decide)
     (by decide)⟩

/-- C6: with a non-zero fast-read opcode, the fast-read step transmits
exactly `opcode ‖ addr_sz address bytes ‖ one zero dummy ‖ addr_dummy_sz
zero dummies` — total length `1 + addr_sz + 1 + addr_dummy_sz` — and
requests `len` received bytes, in one chip-select window. -/
theorem C6_fast_read_frame (ctx : Ctx) (f : Nat) (w : World) (addr len : Nat)
    (hidle : w.spi.op = Op.IDLE) (hcb : w.spi.could_be_busy = false)
    (hpc : w.spi.busy_pre_check = false) (hbcw : w.spi.busy_check_wait = BCW_IDLE)
    (hclean : ∀ j, 1 + ctx.cfg.addr_sz ≤ j → w.spi.ibuf j = 0)
    (hfast : ctx.cmd.read_data_fast ≠ 0)
    (htx : ctx.hal.txres w.n = 0) :
    (SPIFLASH_fast_read ctx (f + 1) false w addr len).2 = SPIFLASH_OK ∧
    (SPIFLASH_fast_read ctx (f + 1) false w addr len).1.tr =
      w.tr ++ [Ev.cs true,
        Ev.txrx ([ctx.cmd.read_data_fast] ++ compose_address ctx.cfg addr ++ [0] ++
          List.replicate ctx.cfg.addr_dummy_sz 0) len,
        Ev.cs false] ∧
    ([ctx.cmd.read_data_fast] ++ compose_address ctx.cfg addr ++ [0] ++
      List.replicate ctx.cfg.addr_dummy_sz 0).length =
      1 + ctx.cfg.addr_sz + 1 + ctx.cfg.addr_dummy_sz := by
  have hlen : ([ctx.cmd.read_data_fast] ++ compose_address ctx.cfg addr ++ [0] ++
      List.replicate ctx.cfg.addr_dummy_sz 0).length =
      1 + ctx.cfg.addr_sz + 1 + ctx.cfg.addr_dummy_sz := by
    simp [compose_address]
    omega
  have hframe := fastread_frame ctx.cfg w.spi.ibuf ctx.cmd.read_data_fast addr hclean
  refine ⟨?_, ?_, hlen⟩ <;>
  simp [SPIFLASH_fast_read, spiflash_exe, begin_async, end_async, end_results, exe_loop,
    exe_loop_done, SPIFLASH_async_trigger, hal_cs, hal_txrx, spiflash_finalize,
    hidle, hcb, hpc, hbcw, hfast, htx, hframe, BCW_IDLE, BCW_WAIT, BCW_READ_SR, BCW_CHECK,
    SPIFLASH_OK]

/-- Witness for C6: fast read of 16 bytes at 0x2000 from a freshly
initialized driver with the standard command table. -/
theorem C6_fast_read_frame_witness :
    (({} : World)).spi.op = Op.IDLE ∧
    (∀ j, 1 + testCtx.cfg.addr_sz ≤ j → (({} : World)).spi.ibuf j = 0) ∧
    testCtx.cmd.read_data_fast ≠ 0 ∧
    ((SPIFLASH_fast_read testCtx 2 false {} 0x2000 16).2 = SPIFLASH_OK ∧
     (SPIFLASH_fast_read testCtx 2 false {} 0x2000 16).1.tr =
       [] ++ [Ev.cs true,
         Ev.txrx ([testCtx.cmd.read_data_fast] ++ compose_address testCtx.cfg 0x2000 ++ [0] ++
           List.replicate testCtx.cfg.addr_dummy_sz 0) 16,
         Ev.cs false] ∧
     ([testCtx.cmd.read_data_fast] ++ compose_address testCtx.cfg 0x2000 ++ [0] ++
       List.replicate testCtx.cfg.addr_dummy_sz 0).length =
       1 + testCtx.cfg.addr_sz + 1 + testCtx.cfg.addr_dummy_sz) :=
  ⟨rfl, fun _ _ => rfl, by decide,
   C6_fast_read_frame testCtx 1 {} 0x2000 16 rfl rfl rfl rfl (fun _ _ => rfl)
     (by decide) rfl⟩

/-- Witness for C10 at a concrete idle world and address. -/
theorem C10_erase_zero_length_witness :
    (({} : World)).spi.op = Op.IDLE ∧
    (get_largest_erase_area testCtx.cmd 7 0 = 0 ∧
     SPIFLASH_erase testCtx 5 false {} 7 0 = ({}, SPIFLASH_ERR_ERASE_UNALIGNED)) :=
  ⟨rfl, C10_erase_zero_length testCtx 5 false {} 7 rfl⟩

/-- C3: a write of `len > 0` bytes splits into page-program payloads whose
sizes are exactly the spec's splitting of `[addr, addr+len)` at page
multiples, summing to `len`; each payload is preceded by a write-enable
frame and a page-program opcode-plus-address frame at the running cursor
(the whole emitted trace is the chunk plan's event stream). -/
theorem C3_page_split (ctx : Ctx) (k : Nat) (hk : ctx.cfg.page_sz = 2 ^ k) (h32 : k ≤ 32)
    (htx : ∀ i, ctx.hal.txres i = 0) (hrx : ∀ i, ctx.hal.rx i = [0])
    (w : World) (addr len f : Nat) (hlen0 : len ≠ 0)
    (hidle : w.spi.op = Op.IDLE) (hcb : w.spi.could_be_busy = false)
    (hpre : w.spi.busy_pre_check = false) (hbcw : w.spi.busy_check_wait = BCW_IDLE)
    (hclean : ∀ j, 1 + ctx.cfg.addr_sz ≤ j → w.spi.ibuf j = 0) :
    (SPIFLASH_write ctx (5 * len + f) false w addr len).2 = SPIFLASH_OK ∧
    (SPIFLASH_write ctx (5 * len + f) false w addr len).1.tr =
      w.tr ++ ((writePlan (2 ^ k) addr len 0).map (chunkEvents ctx)).flatten ++
        [Ev.cs false] ∧
    (writePlan (2 ^ k) addr len 0).map (fun e => e.2.2) =
      spec_page_split (2 ^ k) addr len ∧
    (spec_page_split (2 ^ k) addr len).sum = len ∧
    (SPIFLASH_write ctx (5 * len + f) false w addr len).1.spi.op = Op.IDLE := by
  have hsz : (writePlan (2 ^ k) addr len 0).map (fun e => e.2.2) =
      spec_page_split (2 ^ k) addr len :=
    plan_sizes_eq_spec k h32 len addr addr len 0 rfl
  have hsum : (spec_page_split (2 ^ k) addr len).sum = len :=
    spec_split_sum (2 ^ k) (Nat.pos_pow_of_pos k (by norm_num)) len addr len le_rfl
  have hrun := write_run ctx k hk h32 htx hrx len len le_rfl hlen0
    { w with spi := { w.spi with addr := addr, wr_off := 0, len := len,
                                 op := Op.WRITE_sWREN } }
    addr 0 f (by simpa using rfl) (by simpa using hpre) (by simpa using hbcw)
    rfl rfl rfl (fun j hj => hclean j hj)
  simp only [List.append_assoc, List.cons_append, List.nil_append, hcb, hpre, hbcw,
    BCW_IDLE, SPIFLASH_OK] at hrun ⊢
  refine ⟨?_, ?_, hsz, hsum, ?_⟩ <;>
  simp [SPIFLASH_write, spiflash_exe, begin_async, hal_cs, hal_txrx, spiflash_finalize,
    hidle, hcb, hpre, hbcw, htx, BCW_IDLE, SPIFLASH_OK, hrun.1, hrun.2.1, hrun.2.2]

/-- Witness for C3: 300 bytes at 0x180 with 256-byte pages split into
chunks of 128 and 172 bytes. -/
theorem C3_page_split_witness :
    testCtx.cfg.page_sz = 2 ^ 8 ∧ (300 : Nat) ≠ 0 ∧
    spec_page_split (2 ^ 8) 0x180 300 = [128, 172] ∧
    ((SPIFLASH_write testCtx (5 * 300 + 0) false {} 0x180 300).2 = SPIFLASH_OK ∧
     (SPIFLASH_write testCtx (5 * 300 + 0) false {} 0x180 300).1.tr =
       [] ++ ((writePlan (2 ^ 8) 0x180 300 0).map (chunkEvents testCtx)).flatten ++
         [Ev.cs false] ∧
     (writePlan (2 ^ 8) 0x180 300 0).map (fun e => e.2.2) =
       spec_page_split (2 ^ 8) 0x180 300 ∧
     (spec_page_split (2 ^ 8) 0x180 300).sum = 300 ∧
     (SPIFLASH_write testCtx (5 * 300 + 0) false {} 0x180 300).1.spi.op = Op.IDLE) :=
  ⟨rfl, by decide, by decide,
   C3_page_split testCtx 8 rfl (by norm_num) (fun i => rfl) (fun i => rfl) {} 0x180 300 0
     (by decide) rfl rfl rfl rfl (fun j hj => rfl)⟩

theorem begin_nocbs (ctx : Ctx) (s : SpiState) (n : Nat) (tr : List Ev)
    (c c' : List (Op × Int)) :
    begin_async ctx ⟨s, n, tr, c⟩ =
      (⟨(begin_async ctx ⟨s, n, tr, c'⟩).1.spi, (begin_async ctx ⟨s, n, tr, c'⟩).1.n,
        (begin_async ctx ⟨s, n, tr, c'⟩).1.tr, c⟩,
       (begin_async ctx ⟨s, n, tr, c'⟩).2) := by
  unfold begin_async
  by_cases hidle : s.op = Op.IDLE
  · simp [hidle]
  · by_cases hpre : s.busy_pre_check
    · simp [hidle, hpre, hal_cs, hal_txrx]
    · cases hop : s.op <;>
        simp [hidle, hpre, hop, hal_cs, hal_txrx] <;>
        (repeat' split) <;> simp

theorem end_results_nocbs (ctx : Ctx) (s : SpiState) (n : Nat) (tr : List Ev)
    (c c' : List (Op × Int)) (res0 : Int) :
    end_results ctx ⟨s, n, tr, c⟩ res0 =
      (⟨(end_results ctx ⟨s, n, tr, c'⟩ res0).1.spi,
        (end_results ctx ⟨s, n, tr, c'⟩ res0).1.n,
        (end_results ctx ⟨s, n, tr, c'⟩ res0).1.tr, c⟩,
       (end_results ctx ⟨s, n, tr, c'⟩ res0).2) := by
  unfold end_results
  cases hop : s.op <;>
    simp only [hop] <;>
    (repeat' split) <;>
    simp_all [hal_cs, spiflash_finalize] <;>
    rw [begin_nocbs ctx _ _ _ c c'] <;> simp

theorem end_nocbs (ctx : Ctx) (s : SpiState) (n : Nat) (tr : List Ev)
    (c c' : List (Op × Int)) (res0 : Int) :
    end_async ctx ⟨s, n, tr, c⟩ res0 =
      (⟨(end_async ctx ⟨s, n, tr, c'⟩ res0).1.spi,
        (end_async ctx ⟨s, n, tr, c'⟩ res0).1.n,
        (end_async ctx ⟨s, n, tr, c'⟩ res0).1.tr, c⟩,
       (end_async ctx ⟨s, n, tr, c'⟩ res0).2) := by
  unfold end_async
  by_cases hres : res0 ≠ SPIFLASH_OK
  · simp [hres, spiflash_finalize]
  · by_cases hpre : s.busy_pre_check
    · by_cases hbz : spiflash_is_hwbusy ctx.cmd (s.ibuf 0)
      · simp [hres, hpre, hbz, hal_cs]
      · simp only [hres, hpre, hbz, if_true, if_false, ite_true, ite_false,
          not_false_eq_true, not_true_eq_false]
        rw [begin_nocbs ctx _ _ _ c c']
        simp
    · (repeat' split) <;>
        simp_all [hal_cs, hal_txrx, hal_wait, spiflash_finalize] <;>
        (repeat' split) <;>
        first
          | rfl
          | simp
          | (rw [end_results_nocbs ctx _ _ _ c c'] ; (try simp))

theorem trigger_false_cbs (ctx : Ctx) (s : SpiState) (n : Nat) (tr : List Ev)
    (c : List (Op × Int)) (e : Int) :
    (SPIFLASH_async_trigger ctx false ⟨s, n, tr, c⟩ e).1.cbs = c := by
  unfold SPIFLASH_async_trigger
  have hq := end_nocbs ctx s n tr c c e
  rw [hq]
  simp
  split <;> rfl

theorem trigger_rel (ctx : Ctx) (s : SpiState) (n : Nat) (tr : List Ev)
    (c ch : List (Op × Int)) (e : Int) :
    ∃ opv, SPIFLASH_async_trigger ctx true ⟨s, n, tr, ch⟩ e =
      (⟨(SPIFLASH_async_trigger ctx false ⟨s, n, tr, c⟩ e).1.spi,
        (SPIFLASH_async_trigger ctx false ⟨s, n, tr, c⟩ e).1.n,
        (SPIFLASH_async_trigger ctx false ⟨s, n, tr, c⟩ e).1.tr,
        ch ++ (if (SPIFLASH_async_trigger ctx false ⟨s, n, tr, c⟩ e).2 ≠ SPIFLASH_OK ∨
                  (SPIFLASH_async_trigger ctx false ⟨s, n, tr, c⟩ e).1.spi.op = Op.IDLE
               then [(opv, (SPIFLASH_async_trigger ctx false ⟨s, n, tr, c⟩ e).2)] else [])⟩,
       (SPIFLASH_async_trigger ctx false ⟨s, n, tr, c⟩ e).2) := by
  unfold SPIFLASH_async_trigger
  have hq := end_nocbs ctx s n tr ch c e
  rw [hq]
  by_cases hres : (end_async ctx ⟨s, n, tr, c⟩ e).2 = SPIFLASH_OK
  · by_cases hop : (end_async ctx ⟨s, n, tr, c⟩ e).1.spi.op = Op.IDLE
    · exact ⟨(end_async ctx ⟨s, n, tr, c⟩ e).1.spi.op, by simp [hres, hop]⟩
    · exact ⟨(end_async ctx ⟨s, n, tr, c⟩ e).1.spi.op, by simp [hres, hop]⟩
  · exact ⟨(end_async ctx ⟨s, n, tr, c⟩ e).1.spi.op, by simp [hres]⟩

theorem hostDrive_done (ctx : Ctx) (f : Nat) (w : World) (res : Int)
    (h : ¬ (res = SPIFLASH_OK ∧ w.spi.op ≠ Op.IDLE)) :
    hostDrive ctx f w res = (w, res) := by
  cases f <;> simp [hostDrive, h]

theorem loop_rel (ctx : Ctx) :
    ∀ fuel (s : SpiState) (n : Nat) (tr : List Ev) (c ch : List (Op × Int)) (res : Int),
    (hostDrive ctx fuel ⟨s, n, tr, ch⟩ res).2 = (exe_loop ctx fuel ⟨s, n, tr, c⟩ res).2 ∧
    (hostDrive ctx fuel ⟨s, n, tr, ch⟩ res).1.spi =
      (exe_loop ctx fuel ⟨s, n, tr, c⟩ res).1.spi ∧
    (hostDrive ctx fuel ⟨s, n, tr, ch⟩ res).1.n = (exe_loop ctx fuel ⟨s, n, tr, c⟩ res).1.n ∧
    (hostDrive ctx fuel ⟨s, n, tr, ch⟩ res).1.tr =
      (exe_loop ctx fuel ⟨s, n, tr, c⟩ res).1.tr ∧
    (exe_loop ctx fuel ⟨s, n, tr, c⟩ res).1.cbs = c ∧
    ((hostDrive ctx fuel ⟨s, n, tr, ch⟩ res).1.cbs = ch ∨
      ∃ opv, (hostDrive ctx fuel ⟨s, n, tr, ch⟩ res).1.cbs =
        ch ++ [(opv, (hostDrive ctx fuel ⟨s, n, tr, ch⟩ res).2)]) ∧
    ((res = SPIFLASH_OK ∧ s.op ≠ Op.IDLE) →
     ¬ ((exe_loop ctx fuel ⟨s, n, tr, c⟩ res).2 = SPIFLASH_OK ∧
        (exe_loop ctx fuel ⟨s, n, tr, c⟩ res).1.spi.op ≠ Op.IDLE) →
     ∃ opv, (hostDrive ctx fuel ⟨s, n, tr, ch⟩ res).1.cbs =
       ch ++ [(opv, (hostDrive ctx fuel ⟨s, n, tr, ch⟩ res).2)]) := by
  intro fuel
  induction fuel with
  | zero =>
    intro s n tr c ch res
    refine ⟨rfl, rfl, rfl, rfl, rfl, Or.inl rfl, ?_⟩
    intro hg hng
    exact absurd hg (by simpa [exe_loop] using hng)
  | succ fu ih =>
    intro s n tr c ch res
    by_cases hg : res = SPIFLASH_OK ∧ s.op ≠ Op.IDLE
    · obtain ⟨opv0, htr⟩ := trigger_rel ctx s n tr c ch res
      have hexe : exe_loop ctx (fu + 1) ⟨s, n, tr, c⟩ res =
          exe_loop ctx fu (SPIFLASH_async_trigger ctx false ⟨s, n, tr, c⟩ res).1
            (SPIFLASH_async_trigger ctx false ⟨s, n, tr, c⟩ res).2 := by
        simp only [exe_loop]
        rw [if_pos (by simpa using hg)]
      have hhost : hostDrive ctx (fu + 1) ⟨s, n, tr, ch⟩ res =
          hostDrive ctx fu (SPIFLASH_async_trigger ctx true ⟨s, n, tr, ch⟩ res).1
            (SPIFLASH_async_trigger ctx true ⟨s, n, tr, ch⟩ res).2 := by
        simp only [hostDrive]
        rw [if_pos (by simpa using hg)]
      set P := SPIFLASH_async_trigger ctx false ⟨s, n, tr, c⟩ res with hP
      have hPeta : P.1 = ⟨P.1.spi, P.1.n, P.1.tr, P.1.cbs⟩ := rfl
      have hPcbs : P.1.cbs = c := trigger_false_cbs ctx s n tr c res
      by_cases hcond : P.2 ≠ SPIFLASH_OK ∨ P.1.spi.op = Op.IDLE
      · -- the callback fires at this trigger; both loops stop next round
        have hite : (if P.2 ≠ SPIFLASH_OK ∨ P.1.spi.op = Op.IDLE
            then [(opv0, P.2)] else []) = [(opv0, P.2)] := if_pos hcond
        rw [hite] at htr
        have hstop : ¬ (P.2 = SPIFLASH_OK ∧ P.1.spi.op ≠ Op.IDLE) := by tauto
        have hexe2 : exe_loop ctx fu P.1 P.2 = (P.1, P.2) := exe_loop_done ctx fu P.1 P.2 hstop
        have hhost2 : hostDrive ctx fu (SPIFLASH_async_trigger ctx true ⟨s, n, tr, ch⟩ res).1
            (SPIFLASH_async_trigger ctx true ⟨s, n, tr, ch⟩ res).2 =
            ((SPIFLASH_async_trigger ctx true ⟨s, n, tr, ch⟩ res).1,
             (SPIFLASH_async_trigger ctx true ⟨s, n, tr, ch⟩ res).2) := by
          apply hostDrive_done
          rw [htr]
          simpa using hstop
        rw [hexe, hhost, hexe2, hhost2, htr]
        refine ⟨rfl, rfl, rfl, rfl, hPcbs, Or.inr ⟨opv0, rfl⟩, fun _ _ => ⟨opv0, rfl⟩⟩
      · -- no callback yet; recurse
        have hite : (if P.2 ≠ SPIFLASH_OK ∨ P.1.spi.op = Op.IDLE
            then [(opv0, P.2)] else []) = [] := if_neg hcond
        rw [hite, List.append_nil] at htr
        push_neg at hcond
        have hres2 : P.2 = SPIFLASH_OK := by tauto
        have hop2 : P.1.spi.op ≠ Op.IDLE := by tauto
        rw [hexe, hhost, htr]
        set s1 := P.1.spi with hs1
        set n1 := P.1.n with hn1
        set tr1 := P.1.tr with htr1
        have hPw : P.1 = ⟨s1, n1, tr1, c⟩ := by rw [← hPcbs]
        rw [hPw]
        have hihx := ih s1 n1 tr1 c ch P.2
        refine ⟨hihx.1, hihx.2.1, hihx.2.2.1, hihx.2.2.2.1, hihx.2.2.2.2.1,
          hihx.2.2.2.2.2.1, ?_⟩
        intro _ hnf
        exact hihx.2.2.2.2.2.2 ⟨hres2, hop2⟩ hnf
    · have hexe : exe_loop ctx (fu + 1) ⟨s, n, tr, c⟩ res = (⟨s, n, tr, c⟩, res) := by
        simp [exe_loop, hg]
      have hhost : hostDrive ctx (fu + 1) ⟨s, n, tr, ch⟩ res = (⟨s, n, tr, ch⟩, res) := by
        simp [hostDrive, hg]
      rw [hexe, hhost]
      exact ⟨rfl, rfl, rfl, rfl, rfl, Or.inl rfl, fun hg2 _ => absurd hg2 hg⟩

theorem finalize_op (s : SpiState) : (spiflash_finalize s).op = s.op := rfl

theorem exe_rel (ctx : Ctx) (fuel : Nat) (s : SpiState) (n : Nat) (tr : List Ev) :
    (if (spiflash_exe ctx fuel true ⟨s, n, tr, []⟩).2 ≠ SPIFLASH_OK
     then spiflash_exe ctx fuel true ⟨s, n, tr, []⟩
     else hostDrive ctx fuel (spiflash_exe ctx fuel true ⟨s, n, tr, []⟩).1
            (spiflash_exe ctx fuel true ⟨s, n, tr, []⟩).2).2
      = (spiflash_exe ctx fuel false ⟨s, n, tr, []⟩).2 ∧
    (if (spiflash_exe ctx fuel true ⟨s, n, tr, []⟩).2 ≠ SPIFLASH_OK
     then spiflash_exe ctx fuel true ⟨s, n, tr, []⟩
     else hostDrive ctx fuel (spiflash_exe ctx fuel true ⟨s, n, tr, []⟩).1
            (spiflash_exe ctx fuel true ⟨s, n, tr, []⟩).2).1.tr
      = (spiflash_exe ctx fuel false ⟨s, n, tr, []⟩).1.tr ∧
    ((spiflash_exe ctx fuel true ⟨s, n, tr, []⟩).2 = SPIFLASH_OK →
     (spiflash_exe ctx fuel true ⟨s, n, tr, []⟩).1.spi.op ≠ Op.IDLE →
     ¬ ((spiflash_exe ctx fuel false ⟨s, n, tr, []⟩).2 = SPIFLASH_OK ∧
        (spiflash_exe ctx fuel false ⟨s, n, tr, []⟩).1.spi.op ≠ Op.IDLE) →
     ∃ opv, (if (spiflash_exe ctx fuel true ⟨s, n, tr, []⟩).2 ≠ SPIFLASH_OK
             then spiflash_exe ctx fuel true ⟨s, n, tr, []⟩
             else hostDrive ctx fuel (spiflash_exe ctx fuel true ⟨s, n, tr, []⟩).1
                    (spiflash_exe ctx fuel true ⟨s, n, tr, []⟩).2).1.cbs =
       [(opv, (spiflash_exe ctx fuel false ⟨s, n, tr, []⟩).2)]) := by
  have hexe : spiflash_exe ctx fuel true ⟨s, n, tr, []⟩ =
      begin_async ctx ⟨(if s.could_be_busy then { s with busy_pre_check := true } else s),
        n, tr, []⟩ := by
    unfold spiflash_exe
    split <;> simp
  have hsync : spiflash_exe ctx fuel false ⟨s, n, tr, []⟩ =
      (fun q => ({ q.1 with spi := spiflash_finalize q.1.spi }, q.2))
        (exe_loop ctx fuel
          (begin_async ctx ⟨(if s.could_be_busy then { s with busy_pre_check := true }
            else s), n, tr, []⟩).1
          (begin_async ctx ⟨(if s.could_be_busy then { s with busy_pre_check := true }
            else s), n, tr, []⟩).2) := by
    unfold spiflash_exe
    split <;> simp
  have hBeq := begin_nocbs ctx
    (if s.could_be_busy then { s with busy_pre_check := true } else s) n tr [] []
  rw [hexe]
  set B := begin_async ctx
    ⟨(if s.could_be_busy then { s with busy_pre_check := true } else s), n, tr, []⟩ with hB
  have hBcbs : B.1.cbs = [] := by rw [hBeq]
  have hs2 : (spiflash_exe ctx fuel false ⟨s, n, tr, []⟩).2 =
      (exe_loop ctx fuel B.1 B.2).2 := by rw [hsync]
  have hstr : (spiflash_exe ctx fuel false ⟨s, n, tr, []⟩).1.tr =
      (exe_loop ctx fuel B.1 B.2).1.tr := by rw [hsync]
  have hsop : (spiflash_exe ctx fuel false ⟨s, n, tr, []⟩).1.spi.op =
      (exe_loop ctx fuel B.1 B.2).1.spi.op := by rw [hsync]; exact finalize_op _
  set bs := B.1.spi with hbs
  set bn := B.1.n with hbn
  set btr := B.1.tr with hbtr
  have hBw : B.1 = ⟨bs, bn, btr, []⟩ := by rw [← hBcbs]
  rw [hBw] at hs2 hstr hsop ⊢
  obtain ⟨H1, _, _, H4, _, _, H7⟩ := loop_rel ctx fuel bs bn btr [] [] B.2
  by_cases hb : B.2 = SPIFLASH_OK
  · rw [if_neg (not_not_intro hb)]
    refine ⟨by rw [hs2]; exact H1, by rw [hstr]; exact H4, ?_⟩
    intro _ hopne hn
    rw [hs2, hsop] at hn
    obtain ⟨opv, hcb⟩ := H7 ⟨hb, hopne⟩ hn
    refine ⟨opv, ?_⟩
    rw [hcb, H1, ← hs2]
    simp
  · rw [if_pos hb]
    have hdone := exe_loop_done ctx fuel ⟨bs, bn, btr, []⟩ B.2 (by simp [hb])
    rw [hdone] at hs2 hstr
    refine ⟨by rw [hs2], by rw [hstr], ?_⟩
    intro hok
    exact absurd hok hb

/-- **C8.** Async ≡ sync: for every public request, from a clean world the
asynchronous path driven by immediate successful completions emits exactly the
same HAL invocation sequence (the trace of `cs`/`txrx`/`wait` events with their
arguments) as the synchronous call, the entry points return the same result
code, and when the asynchronous operation was started and the synchronous run
completed, the single asynchronous callback carries precisely the synchronous
result code. -/
theorem C8_async_equals_sync (ctx : Ctx) (req : Req) (fuel : Nat) (s : SpiState)
    (n : Nat) (tr : List Ev) :
    (asyncRun ctx req fuel ⟨s, n, tr, []⟩).2 =
      (dispatch req ctx fuel false ⟨s, n, tr, []⟩).2 ∧
    (asyncRun ctx req fuel ⟨s, n, tr, []⟩).1.tr =
      (dispatch req ctx fuel false ⟨s, n, tr, []⟩).1.tr ∧
    ((dispatch req ctx fuel true ⟨s, n, tr, []⟩).2 = SPIFLASH_OK →
     (dispatch req ctx fuel true ⟨s, n, tr, []⟩).1.spi.op ≠ Op.IDLE →
     ¬ ((dispatch req ctx fuel false ⟨s, n, tr, []⟩).2 = SPIFLASH_OK ∧
        (dispatch req ctx fuel false ⟨s, n, tr, []⟩).1.spi.op ≠ Op.IDLE) →
     ∃ opv, (asyncRun ctx req fuel ⟨s, n, tr, []⟩).1.cbs =
       [(opv, (dispatch req ctx fuel false ⟨s, n, tr, []⟩).2)]) := by
  by_cases hbusy : s.op ≠ Op.IDLE
  · cases req <;>
      simp [asyncRun, dispatch, SPIFLASH_write, SPIFLASH_read, SPIFLASH_fast_read,
        SPIFLASH_erase, SPIFLASH_chip_erase, SPIFLASH_write_sr, SPIFLASH_read_sr,
        SPIFLASH_read_sr_busy, SPIFLASH_read_jedec_id, SPIFLASH_read_product_id,
        SPIFLASH_read_reg, SPIFLASH_write_reg, hbusy, SPIFLASH_ERR_BUSY, SPIFLASH_OK]
  · have hid : s.op = Op.IDLE := not_not.mp hbusy
    cases req with
    | write a l =>
      have ht : dispatch (Req.write a l) ctx fuel true ⟨s, n, tr, []⟩ =
          spiflash_exe ctx fuel true
            ⟨{ s with addr := a, wr_off := 0, len := l, op := Op.WRITE_sWREN },
             n, tr, []⟩ := by
        simp [dispatch, SPIFLASH_write, hid]
      have hf : dispatch (Req.write a l) ctx fuel false ⟨s, n, tr, []⟩ =
          spiflash_exe ctx fuel false
            ⟨{ s with addr := a, wr_off := 0, len := l, op := Op.WRITE_sWREN },
             n, tr, []⟩ := by
        simp [dispatch, SPIFLASH_write, hid]
      simp only [asyncRun, ht, hf]
      exact exe_rel ctx fuel _ n tr
    | read a l =>
      have ht : dispatch (Req.read a l) ctx fuel true ⟨s, n, tr, []⟩ =
          spiflash_exe ctx fuel true
            ⟨{ s with addr := a, len := l, op := Op.READ }, n, tr, []⟩ := by
        simp [dispatch, SPIFLASH_read, hid]
      have hf : dispatch (Req.read a l) ctx fuel false ⟨s, n, tr, []⟩ =
          spiflash_exe ctx fuel false
            ⟨{ s with addr := a, len := l, op := Op.READ }, n, tr, []⟩ := by
        simp [dispatch, SPIFLASH_read, hid]
      simp only [asyncRun, ht, hf]
      exact exe_rel ctx fuel _ n tr
    | fastRead a l =>
      by_cases hfr : ctx.cmd.read_data_fast = 0
      · have ht : dispatch (Req.fastRead a l) ctx fuel true ⟨s, n, tr, []⟩ =
            spiflash_exe ctx fuel true
              ⟨{ s with addr := a, len := l, op := Op.READ }, n, tr, []⟩ := by
          simp [dispatch, SPIFLASH_fast_read, hid, hfr]
        have hf : dispatch (Req.fastRead a l) ctx fuel false ⟨s, n, tr, []⟩ =
            spiflash_exe ctx fuel false
              ⟨{ s with addr := a, len := l, op := Op.READ }, n, tr, []⟩ := by
          simp [dispatch, SPIFLASH_fast_read, hid, hfr]
        simp only [asyncRun, ht, hf]
        exact exe_rel ctx fuel _ n tr
      · have ht : dispatch (Req.fastRead a l) ctx fuel true ⟨s, n, tr, []⟩ =
            spiflash_exe ctx fuel true
              ⟨{ s with addr := a, len := l, op := Op.FAST_READ }, n, tr, []⟩ := by
          simp [dispatch, SPIFLASH_fast_read, hid, hfr]
        have hf : dispatch (Req.fastRead a l) ctx fuel false ⟨s, n, tr, []⟩ =
            spiflash_exe ctx fuel false
              ⟨{ s with addr := a, len := l, op := Op.FAST_READ }, n, tr, []⟩ := by
          simp [dispatch, SPIFLASH_fast_read, hid, hfr]
        simp only [asyncRun, ht, hf]
        exact exe_rel ctx fuel _ n tr
    | erase a l =>
      by_cases hera : get_largest_erase_area ctx.cmd a l = 0
      · simp [asyncRun, dispatch, SPIFLASH_erase, hid, hera,
          SPIFLASH_ERR_ERASE_UNALIGNED, SPIFLASH_OK]
      · have ht : dispatch (Req.erase a l) ctx fuel true ⟨s, n, tr, []⟩ =
            spiflash_exe ctx fuel true
              ⟨{ s with addr := a, len := l, op := Op.ERASE_BLOCK_sWREN },
               n, tr, []⟩ := by
          simp [dispatch, SPIFLASH_erase, hid, hera]
        have hf : dispatch (Req.erase a l) ctx fuel false ⟨s, n, tr, []⟩ =
            spiflash_exe ctx fuel false
              ⟨{ s with addr := a, len := l, op := Op.ERASE_BLOCK_sWREN },
               n, tr, []⟩ := by
          simp [dispatch, SPIFLASH_erase, hid, hera]
        simp only [asyncRun, ht, hf]
        exact exe_rel ctx fuel _ n tr
    | chipErase =>
      have ht : dispatch Req.chipErase ctx fuel true ⟨s, n, tr, []⟩ =
          spiflash_exe ctx fuel true
            ⟨{ s with op := Op.ERASE_CHIP_sWREN }, n, tr, []⟩ := by
        simp [dispatch, SPIFLASH_chip_erase, hid]
      have hf : dispatch Req.chipErase ctx fuel false ⟨s, n, tr, []⟩ =
          spiflash_exe ctx fuel false
            ⟨{ s with op := Op.ERASE_CHIP_sWREN }, n, tr, []⟩ := by
        simp [dispatch, SPIFLASH_chip_erase, hid]
      simp only [asyncRun, ht, hf]
      exact exe_rel ctx fuel _ n tr
    | writeSr sr =>
      have ht : dispatch (Req.writeSr sr) ctx fuel true ⟨s, n, tr, []⟩ =
          spiflash_exe ctx fuel true
            ⟨{ s with ibuf := fwrite s.ibuf 0 sr, op := Op.WRITE_SR_sWREN },
             n, tr, []⟩ := by
        simp [dispatch, SPIFLASH_write_sr, hid]
      have hf : dispatch (Req.writeSr sr) ctx fuel false ⟨s, n, tr, []⟩ =
          spiflash_exe ctx fuel false
            ⟨{ s with ibuf := fwrite s.ibuf 0 sr, op := Op.WRITE_SR_sWREN },
             n, tr, []⟩ := by
        simp [dispatch, SPIFLASH_write_sr, hid]
      simp only [asyncRun, ht, hf]
      exact exe_rel ctx fuel _ n tr
    | readSr =>
      have ht : dispatch Req.readSr ctx fuel true ⟨s, n, tr, []⟩ =
          spiflash_exe ctx fuel true ⟨{ s with op := Op.READ_SR }, n, tr, []⟩ := by
        simp [dispatch, SPIFLASH_read_sr, hid]
      have hf : dispatch Req.readSr ctx fuel false ⟨s, n, tr, []⟩ =
          spiflash_exe ctx fuel false ⟨{ s with op := Op.READ_SR }, n, tr, []⟩ := by
        simp [dispatch, SPIFLASH_read_sr, hid]
      simp only [asyncRun, ht, hf]
      exact exe_rel ctx fuel _ n tr
    | readSrBusy =>
      have ht : dispatch Req.readSrBusy ctx fuel true ⟨s, n, tr, []⟩ =
          spiflash_exe ctx fuel true ⟨{ s with op := Op.READ_SR_BUSY }, n, tr, []⟩ := by
        simp [dispatch, SPIFLASH_read_sr_busy, hid]
      have hf : dispatch Req.readSrBusy ctx fuel false ⟨s, n, tr, []⟩ =
          spiflash_exe ctx fuel false ⟨{ s with op := Op.READ_SR_BUSY }, n, tr, []⟩ := by
        simp [dispatch, SPIFLASH_read_sr_busy, hid]
      simp only [asyncRun, ht, hf]
      exact exe_rel ctx fuel _ n tr
    | readJedec =>
      have ht : dispatch Req.readJedec ctx fuel true ⟨s, n, tr, []⟩ =
          spiflash_exe ctx fuel true ⟨{ s with op := Op.READ_JEDEC }, n, tr, []⟩ := by
        simp [dispatch, SPIFLASH_read_jedec_id, hid]
      have hf : dispatch Req.readJedec ctx fuel false ⟨s, n, tr, []⟩ =
          spiflash_exe ctx fuel false ⟨{ s with op := Op.READ_JEDEC }, n, tr, []⟩ := by
        simp [dispatch, SPIFLASH_read_jedec_id, hid]
      simp only [asyncRun, ht, hf]
      exact exe_rel ctx fuel _ n tr
    | readProduct =>
      have ht : dispatch Req.readProduct ctx fuel true ⟨s, n, tr, []⟩ =
          spiflash_exe ctx fuel true ⟨{ s with op := Op.READ_PRODUCT }, n, tr, []⟩ := by
        simp [dispatch, SPIFLASH_read_product_id, hid]
      have hf : dispatch Req.readProduct ctx fuel false ⟨s, n, tr, []⟩ =
          spiflash_exe ctx fuel false ⟨{ s with op := Op.READ_PRODUCT }, n, tr, []⟩ := by
        simp [dispatch, SPIFLASH_read_product_id, hid]
      simp only [asyncRun, ht, hf]
      exact exe_rel ctx fuel _ n tr
    | readReg r =>
      have ht : dispatch (Req.readReg r) ctx fuel true ⟨s, n, tr, []⟩ =
          spiflash_exe ctx fuel true
            ⟨{ s with ibuf := fwrite s.ibuf 0 r, op := Op.READ_REG }, n, tr, []⟩ := by
        simp [dispatch, SPIFLASH_read_reg, hid]
      have hf : dispatch (Req.readReg r) ctx fuel false ⟨s, n, tr, []⟩ =
          spiflash_exe ctx fuel false
            ⟨{ s with ibuf := fwrite s.ibuf 0 r, op := Op.READ_REG }, n, tr, []⟩ := by
        simp [dispatch, SPIFLASH_read_reg, hid]
      simp only [asyncRun, ht, hf]
      exact exe_rel ctx fuel _ n tr
    | writeReg r d we wm =>
      cases we with
      | false =>
        have ht : dispatch (Req.writeReg r d false wm) ctx fuel true ⟨s, n, tr, []⟩ =
            spiflash_exe ctx fuel true
              ⟨{ s with ibuf := fwrite (fwrite s.ibuf 0 r) 1 d, op := Op.WRITE_REG_DATA }, n, tr, []⟩ := by
          simp [dispatch, SPIFLASH_write_reg, hid]
        have hf : dispatch (Req.writeReg r d false wm) ctx fuel false ⟨s, n, tr, []⟩ =
            spiflash_exe ctx fuel false
              ⟨{ s with ibuf := fwrite (fwrite s.ibuf 0 r) 1 d, op := Op.WRITE_REG_DATA }, n, tr, []⟩ := by
          simp [dispatch, SPIFLASH_write_reg, hid]
        simp only [asyncRun, ht, hf]
        exact exe_rel ctx fuel _ n tr
      | true =>
        have ht : dispatch (Req.writeReg r d true wm) ctx fuel true ⟨s, n, tr, []⟩ =
            spiflash_exe ctx fuel true
              ⟨{ s with ibuf := fwrite (fwrite s.ibuf 0 r) 1 d, op := Op.WRITE_REG_sWREN, wait_period_ms := wm }, n, tr, []⟩ := by
          simp [dispatch, SPIFLASH_write_reg, hid]
        have hf : dispatch (Req.writeReg r d true wm) ctx fuel false ⟨s, n, tr, []⟩ =
            spiflash_exe ctx fuel false
              ⟨{ s with ibuf := fwrite (fwrite s.ibuf 0 r) 1 d, op := Op.WRITE_REG_sWREN, wait_period_ms := wm }, n, tr, []⟩ := by
          simp [dispatch, SPIFLASH_write_reg, hid]
        simp only [asyncRun, ht, hf]
        exact exe_rel ctx fuel _ n tr

/-- Witness for C8: a concrete read-status request against the all-ready HAL,
with every hypothesis of the claim theorem discharged by evaluation. -/
theorem C8_async_equals_sync_witness :
    ((dispatch Req.readSr testCtx 8 true ⟨initState, 0, [], []⟩).2 = SPIFLASH_OK ∧
     (dispatch Req.readSr testCtx 8 true ⟨initState, 0, [], []⟩).1.spi.op ≠ Op.IDLE ∧
     ¬ ((dispatch Req.readSr testCtx 8 false ⟨initState, 0, [], []⟩).2 = SPIFLASH_OK ∧
        (dispatch Req.readSr testCtx 8 false ⟨initState, 0, [], []⟩).1.spi.op ≠ Op.IDLE)) ∧
    (∃ opv, (asyncRun testCtx Req.readSr 8 ⟨initState, 0, [], []⟩).1.cbs =
      [(opv, (dispatch Req.readSr testCtx 8 false ⟨initState, 0, [], []⟩).2)]) := by
  refine ⟨⟨by decide, by decide, by decide⟩, ?_⟩
  exact (C8_async_equals_sync testCtx Req.readSr 8 initState 0 []).2.2
    (by decide) (by decide) (by decide)

end Spiflash
